import Mathlib

/-!
# Verification of the botanu-sdk-python run-identity core

Shallow embedding of `src/botanu/models/run_context.py`,
`src/botanu/sdk/decorators.py`, `src/botanu/processors/enricher.py` and
`src/botanu/tracking/ledger.py`, together with proofs about the embedded
definitions.

Modelling conventions:
* Python `str` is `String`; `Optional[X]` is `Option X`.
* Wall-clock instants (`time.time()`, `datetime.now()`) and Python floats
  are modelled as `ℚ`; every function reading the clock takes the current
  time as an explicit argument.
* `os.getenv` results are explicit `Option String` arguments.
* Machine-level byte operations are `Nat` with explicit `% 256` / `% 16` /
  `% 64` and `/ 2^k` for shifts, mirroring the masks in the source.
* Fallible code returns `Option` / `Except`; dictionaries are association
  lists looked up by first match (Python dicts have unique keys).
-/

namespace Botanu

/-! ## Python string truthiness helpers -/

/-- Python `a or b` where `a : Optional[str]`: `None` and `""` are falsy. -/
def pyOr (a : Option String) (b : String) : String :=
  match a with
  | none => b
  | some s => if s = "" then b else s

/-- Python truthiness of an `Optional[str]` value. -/
def pyTruthy (a : Option String) : Bool :=
  match a with
  | none => false
  | some s => !(s == "")

/-! ## Decimal digits: model of Python `str(int)` and `int(str)` / `float(str)`.

Python's `int()` / `float()` also accept underscore digit grouping and
(for `float`) exponent and `inf`/`nan` forms; the model covers the
sign/digits/decimal-point forms, which include every string the encoder
under verification produces. -/

/-- ASCII decimal digit test (Python's parsers accept exactly these in the
forms the model covers). -/
def pyIsDigit (c : Char) : Bool := 48 ≤ c.toNat && c.toNat ≤ 57

/-- ASCII whitespace test (space, tab, newline, vertical tab, form feed,
carriage return). -/
def pyIsSpace (c : Char) : Bool := c.toNat == 32 || (9 ≤ c.toNat && c.toNat ≤ 13)

/-- The decimal digit character for `d < 10` (ASCII `'0'` is 48). -/
def natToDigitChar (d : Nat) : Char := Char.ofNat (48 + d)

/-- Big-endian decimal digits of a natural number.  Fuel-based so that the
definition reduces in the kernel; `natDigits` supplies sufficient fuel. -/
def natDigitsAux : Nat → Nat → List Char
  | 0, n => [natToDigitChar (n % 10)]
  | fuel + 1, n =>
    if n < 10 then [natToDigitChar n]
    else natDigitsAux fuel (n / 10) ++ [natToDigitChar (n % 10)]

/-- Big-endian decimal digit string of a natural number. -/
def natDigits (n : Nat) : List Char := natDigitsAux n n

/-- Numeric value of a decimal digit character. -/
def digitVal (c : Char) : Nat := c.toNat - 48

/-- Value of a big-endian decimal digit list. -/
def digitsVal (l : List Char) : Nat := l.foldl (fun a c => a * 10 + digitVal c) 0

/-- Parse a non-empty all-digits character list, else `none`. -/
def parseNatChars (l : List Char) : Option Nat :=
  if l.isEmpty then none
  else if l.all pyIsDigit then some (digitsVal l)
  else none

/-- Python `str.strip()` on a character list (both-ends whitespace). -/
def pyStrip (l : List Char) : List Char :=
  ((l.dropWhile pyIsSpace).reverse.dropWhile pyIsSpace).reverse

/-- Model of Python `int(s)`: strip whitespace, optional sign, decimal
digits; `none` models `ValueError`. -/
def pyParseInt (s : String) : Option Int :=
  match pyStrip s.data with
  | [] => none
  | c :: rest =>
    if c = '-' then (parseNatChars rest).map (fun n => -(n : Int))
    else if c = '+' then (parseNatChars rest).map (fun n => (n : Int))
    else (parseNatChars (c :: rest)).map (fun n => (n : Int))

/-- Model of Python `float(s)` on sign/digits/decimal-point forms;
`none` models `ValueError`. -/
def pyParseRat (s : String) : Option ℚ :=
  match pyStrip s.data with
  | [] => none
  | t =>
    let su : Bool × List Char :=
      match t with
      | '-' :: r => (true, r)
      | '+' :: r => (false, r)
      | r => (false, r)
    let u := su.2
    let ip := u.takeWhile (fun c => !(c == '.'))
    let core : Option ℚ :=
      match u.dropWhile (fun c => !(c == '.')) with
      | [] =>
        if ip.isEmpty then none
        else if ip.all pyIsDigit then some ((digitsVal ip : ℚ))
        else none
      | _ :: fp =>
        if fp.all (fun c => !(c == '.')) && !((ip ++ fp).isEmpty)
            && (ip ++ fp).all pyIsDigit
        then some ((digitsVal ip : ℚ) + (digitsVal fp : ℚ) / (10 : ℚ) ^ fp.length)
        else none
    core.map (fun q => if su.1 then -q else q)

/-- Model of Python `str(i)` for an `int`. -/
def pyStrInt (i : Int) : String :=
  if i < 0 then String.mk ('-' :: natDigits i.natAbs) else String.mk (natDigits i.natAbs)

/-- Model of Python `int(q)` for a float: truncation toward zero. -/
def pyTrunc (q : ℚ) : Int := q.num / (q.den : Int)

/-! ## `run_context.py`: the data model -/

/-- `RunStatus` (`run_context.py`).  The Python member `PARTIAL` (string
value `"partial"`) is named `partOk` here because its Python name is a
Lean keyword. -/
inductive RunStatus
  | success
  | failure
  | partOk
  | timeout
  | canceled
deriving DecidableEq, Repr

/-- The `.value` of a `RunStatus` member. -/
def RunStatus.value : RunStatus → String
  | .success => "success"
  | .failure => "failure"
  | .partOk => "partial"
  | .timeout => "timeout"
  | .canceled => "canceled"

/-- `RunOutcome` (`run_context.py`). -/
structure RunOutcome where
  status : RunStatus
  reason_code : Option String
  error_class : Option String
  value_type : Option String
  value_amount : Option ℚ
  confidence : Option ℚ
deriving DecidableEq, Repr

/-- `RunContext` (`run_context.py`).  `__post_init__` normalises
`root_run_id` to `run_id` when `None`; both code paths that construct a
context (`create`, `from_baggage`) already pass a non-`None` value, which
the factory definitions below reproduce. -/
structure RunContext where
  run_id : String
  workflow : String
  event_id : String
  customer_id : String
  environment : String
  workflow_version : Option String
  tenant_id : Option String
  parent_run_id : Option String
  root_run_id : Option String
  attempt : Int
  retry_of_run_id : Option String
  start_time : ℚ
  deadline : Option ℚ
  cancelled : Bool
  cancelled_at : Option ℚ
  outcome : Option RunOutcome
deriving DecidableEq, Repr

/-- `environment or os.getenv("BOTANU_ENVIRONMENT") or
os.getenv("DEPLOYMENT_ENVIRONMENT") or "production"` in
`RunContext.create`; `envB`/`envD` are the two `getenv` results. -/
def resolveEnv (environment envB envD : Option String) : String :=
  pyOr environment (pyOr envB (pyOr envD "production"))

/-- `RunContext.create` (`run_context.py`).  `run_id` is the value
returned by `generate_run_id()`, `now` the wall clock at creation,
`envB`/`envD` the environment-variable reads.  Note: the source performs
no validation of `event_id` / `customer_id`. -/
def RunContext.create (workflow event_id customer_id : String)
    (workflow_version environment : Option String)
    (tenant_id parent_run_id root_run_id : Option String)
    (attempt : Int) (retry_of_run_id : Option String)
    (deadline_seconds : Option ℚ)
    (run_id : String) (now : ℚ) (envB envD : Option String) : RunContext :=
  { run_id := run_id
    workflow := workflow
    event_id := event_id
    customer_id := customer_id
    environment := resolveEnv environment envB envD
    workflow_version := workflow_version
    tenant_id := tenant_id
    parent_run_id := parent_run_id
    root_run_id := some (pyOr root_run_id run_id)
    attempt := attempt
    retry_of_run_id := retry_of_run_id
    start_time := now
    deadline := deadline_seconds.map (fun s => now + s)
    cancelled := false
    cancelled_at := none
    outcome := none }

/-- `RunContext.create_retry` (`run_context.py`): delegates to `create`,
copying identity fields, incrementing `attempt`, linking `retry_of_run_id`,
and passing no `deadline_seconds`. -/
def RunContext.create_retry (previous : RunContext) (run_id : String) (now : ℚ)
    (envB envD : Option String) : RunContext :=
  RunContext.create previous.workflow previous.event_id previous.customer_id
    previous.workflow_version (some previous.environment)
    previous.tenant_id previous.parent_run_id previous.root_run_id
    (previous.attempt + 1) (some previous.run_id) none run_id now envB envD

/-- `RunContext.complete` (`run_context.py`): unconditionally assigns a
fresh `RunOutcome` to `self.outcome`. -/
def RunContext.complete (ctx : RunContext) (status : RunStatus)
    (reason_code error_class value_type : Option String)
    (value_amount confidence : Option ℚ) : RunContext :=
  { ctx with
    outcome := some
      { status := status
        reason_code := reason_code
        error_class := error_class
        value_type := value_type
        value_amount := value_amount
        confidence := confidence } }

/-- `RunContext.is_past_deadline`. -/
def RunContext.is_past_deadline (ctx : RunContext) (now : ℚ) : Bool :=
  match ctx.deadline with
  | none => false
  | some d => decide (d < now)

/-- `RunContext.is_cancelled`. -/
def RunContext.is_cancelled (ctx : RunContext) (now : ℚ) : Bool :=
  ctx.cancelled || ctx.is_past_deadline now

/-! ## `run_context.py`: the propagation codec -/

/-- `if v: baggage[k] = v` for an optional string field. -/
def strOptEntry (v : Option String) (k : String) : List (String × String) :=
  match v with
  | none => []
  | some s => if s = "" then [] else [(k, s)]

/-- The `root_run_id` entry of the full-mode baggage: emitted only when
truthy and different from `run_id`. -/
def rootEntry (root : Option String) (run_id : String) : List (String × String) :=
  match root with
  | none => []
  | some r =>
    if r = "" then [] else if r = run_id then [] else [("botanu.root_run_id", r)]

/-- The `attempt` entry of the full-mode baggage: emitted only when
`attempt > 1`, as `str(attempt)`. -/
def attemptEntry (attempt : Int) : List (String × String) :=
  if 1 < attempt then [("botanu.attempt", pyStrInt attempt)] else []

/-- The `deadline` entry of the full-mode baggage: epoch milliseconds,
`str(int(deadline * 1000))`. -/
def deadlineEntry (deadline : Option ℚ) : List (String × String) :=
  match deadline with
  | none => []
  | some d => [("botanu.deadline", pyStrInt (pyTrunc (d * 1000)))]

/-- The `cancelled` entry of the full-mode baggage: the `"true"` literal,
emitted only when cancelled. -/
def cancelledEntry (cancelled : Bool) : List (String × String) :=
  if cancelled then [("botanu.cancelled", "true")] else []

/-- `RunContext.to_baggage_dict` (`run_context.py`); `lean_mode` resolved
(the source reads `BOTANU_PROPAGATION_MODE` when the argument is `None`). -/
def RunContext.to_baggage_dict (ctx : RunContext) (lean_mode : Bool) :
    List (String × String) :=
  let base := [("botanu.run_id", ctx.run_id), ("botanu.workflow", ctx.workflow),
    ("botanu.event_id", ctx.event_id), ("botanu.customer_id", ctx.customer_id)]
  if lean_mode then base
  else
    base
      ++ [("botanu.environment", ctx.environment)]
      ++ strOptEntry ctx.tenant_id "botanu.tenant_id"
      ++ strOptEntry ctx.parent_run_id "botanu.parent_run_id"
      ++ rootEntry ctx.root_run_id ctx.run_id
      ++ attemptEntry ctx.attempt
      ++ strOptEntry ctx.retry_of_run_id "botanu.retry_of_run_id"
      ++ deadlineEntry ctx.deadline
      ++ cancelledEntry ctx.cancelled

/-- `dict.get` on the baggage carrier: first entry with the given key. -/
def bGet (b : List (String × String)) (k : String) : Option String :=
  (b.find? (fun p => p.1 == k)).map (fun p => p.2)

/-- `RunContext.from_baggage` (`run_context.py`).  `now` is the wall clock
(the dataclass `start_time` default factory). -/
def RunContext.from_baggage (b : List (String × String)) (now : ℚ) :
    Option RunContext :=
  let run_id? := bGet b "botanu.run_id"
  let workflow? := bGet b "botanu.workflow"
  if pyTruthy run_id? && pyTruthy workflow? then
    let run_id := run_id?.getD ""
    let attempt := (pyParseInt ((bGet b "botanu.attempt").getD "1")).getD 1
    let deadline : Option ℚ :=
      match bGet b "botanu.deadline" with
      | none => none
      | some s => if s = "" then none else (pyParseRat s).map (fun q => q / 1000)
    some
      { run_id := run_id
        workflow := workflow?.getD ""
        event_id := (bGet b "botanu.event_id").getD ""
        customer_id := (bGet b "botanu.customer_id").getD ""
        environment := (bGet b "botanu.environment").getD "unknown"
        workflow_version := none
        tenant_id := bGet b "botanu.tenant_id"
        parent_run_id := bGet b "botanu.parent_run_id"
        root_run_id := some (pyOr (bGet b "botanu.root_run_id") run_id)
        attempt := attempt
        retry_of_run_id := bGet b "botanu.retry_of_run_id"
        start_time := now
        deadline := deadline
        cancelled := ((bGet b "botanu.cancelled").getD "").toLower == "true"
        cancelled_at := none
        outcome := none }
  else none

/-! ## Lemmas about the decimal printer and parsers -/

lemma pyIsDigit_natToDigitChar : ∀ d < 10, pyIsDigit (natToDigitChar d) = true := by
  decide

lemma digitVal_natToDigitChar : ∀ d < 10, digitVal (natToDigitChar d) = d := by
  decide

lemma digitsVal_append_singleton (l : List Char) (c : Char) :
    digitsVal (l ++ [c]) = digitsVal l * 10 + digitVal c := by
  simp [digitsVal, List.foldl_append]

lemma natDigitsAux_spec :
    ∀ n fuel, n ≤ fuel →
      natDigitsAux fuel n ≠ [] ∧ (natDigitsAux fuel n).all pyIsDigit = true ∧
        digitsVal (natDigitsAux fuel n) = n := by
  intro n
  induction n using Nat.strong_induction_on with
  | _ n ih =>
    intro fuel hfuel
    match fuel with
    | 0 =>
      have hn : n = 0 := by omega
      subst hn
      refine ⟨by simp [natDigitsAux], by decide, by decide⟩
    | fuel + 1 =>
      by_cases h10 : n < 10
      · refine ⟨by simp [natDigitsAux, h10], ?_, ?_⟩
        · simp [natDigitsAux, h10, pyIsDigit_natToDigitChar n h10]
        · simp [natDigitsAux, h10, digitsVal, digitVal_natToDigitChar n h10]
      · have hdiv : n / 10 < n := Nat.div_lt_self (by omega) (by omega)
        have hdf : n / 10 ≤ fuel := by omega
        obtain ⟨ih1, ih2, ih3⟩ := ih (n / 10) hdiv fuel hdf
        have hmod : n % 10 < 10 := Nat.mod_lt _ (by omega)
        refine ⟨by simp [natDigitsAux, h10], ?_, ?_⟩
        · simp [natDigitsAux, h10, List.all_append, ih2,
            pyIsDigit_natToDigitChar _ hmod]
        · simp only [natDigitsAux, if_neg h10, digitsVal_append_singleton, ih3,
            digitVal_natToDigitChar _ hmod]
          omega

lemma natDigits_spec (n : Nat) :
    natDigits n ≠ [] ∧ (natDigits n).all pyIsDigit = true ∧
      digitsVal (natDigits n) = n :=
  natDigitsAux_spec n n le_rfl

lemma parseNatChars_natDigits (n : Nat) : parseNatChars (natDigits n) = some n := by
  obtain ⟨h1, h2, h3⟩ := natDigits_spec n
  simp [parseNatChars, List.isEmpty_iff, h1, h2, h3]

lemma pyIsDigit_not_space {c : Char} (h : pyIsDigit c = true) : pyIsSpace c = false := by
  simp [pyIsDigit] at h
  simp [pyIsSpace]
  omega

lemma dropWhile_space_of_all_digits {l : List Char} (h : l.all pyIsDigit = true) :
    l.dropWhile pyIsSpace = l := by
  cases l with
  | nil => rfl
  | cons c t =>
    simp only [List.all_cons, Bool.and_eq_true] at h
    simp [List.dropWhile_cons, pyIsDigit_not_space h.1]

lemma pyStrip_of_all_digits {l : List Char} (h : l.all pyIsDigit = true) :
    pyStrip l = l := by
  have hrev : l.reverse.all pyIsDigit = true := by simpa using h
  simp [pyStrip, dropWhile_space_of_all_digits h,
    dropWhile_space_of_all_digits hrev]

lemma pyParseInt_natDigits (n : Nat) :
    pyParseInt (String.mk (natDigits n)) = some (n : Int) := by
  obtain ⟨h1, h2, h3⟩ := natDigits_spec n
  obtain ⟨c, rest, hcr⟩ := List.exists_cons_of_ne_nil h1
  have hcdigit : pyIsDigit c = true := by
    rw [hcr] at h2
    simp only [List.all_cons, Bool.and_eq_true] at h2
    exact h2.1
  have hcm : ¬ c = '-' := by
    intro he
    rw [he] at hcdigit
    simp [pyIsDigit] at hcdigit
  have hcp : ¬ c = '+' := by
    intro he
    rw [he] at hcdigit
    simp [pyIsDigit] at hcdigit
  have hdata : (String.mk (natDigits n)).data = natDigits n := rfl
  rw [pyParseInt, hdata, pyStrip_of_all_digits h2, hcr]
  simp only [if_neg hcm, if_neg hcp]
  rw [← hcr, parseNatChars_natDigits]
  rfl

lemma pyParseInt_pyStrInt_of_nonneg {i : Int} (h : 0 ≤ i) :
    pyParseInt (pyStrInt i) = some i := by
  rw [pyStrInt, if_neg (not_lt.mpr h), pyParseInt_natDigits]
  simp [Int.natAbs_of_nonneg h]

/-! ## Lemmas about carrier lookup -/

lemma bGet_nil (k : String) : bGet [] k = none := rfl

lemma bGet_append (l1 l2 : List (String × String)) (k : String) :
    bGet (l1 ++ l2) k = (bGet l1 k).orElse (fun _ => bGet l2 k) := by
  simp only [bGet, List.find?_append]
  cases h : l1.find? (fun p => p.1 == k) <;> simp

lemma bGet_cons (k k' v : String) (l : List (String × String)) :
    bGet ((k, v) :: l) k' = if (k == k') = true then some v else bGet l k' := by
  by_cases h : (k == k') = true <;> simp [bGet, List.find?_cons, h]

lemma bGet_strOptEntry_ne (v : Option String) (k k' : String)
    (h : (k == k') = false) : bGet (strOptEntry v k) k' = none := by
  cases v with
  | none => rfl
  | some s =>
    by_cases hs : s = "" <;> simp [strOptEntry, hs, bGet, List.find?_cons, h]

lemma bGet_strOptEntry_self (s k : String) (hs : s ≠ "") :
    bGet (strOptEntry (some s) k) k = some s := by
  simp [strOptEntry, hs, bGet, List.find?_cons]

lemma bGet_strOptEntry_none (k k' : String) :
    bGet (strOptEntry none k) k' = none := rfl

lemma bGet_rootEntry_ne (root : Option String) (rid k : String)
    (h : ("botanu.root_run_id" == k) = false) :
    bGet (rootEntry root rid) k = none := by
  cases root with
  | none => rfl
  | some r =>
    by_cases h1 : r = ""
    · simp [rootEntry, h1, bGet]
    · by_cases h2 : r = rid <;> simp [rootEntry, h1, h2, bGet, List.find?_cons, h]

lemma bGet_attemptEntry_ne (a : Int) (k : String)
    (h : ("botanu.attempt" == k) = false) : bGet (attemptEntry a) k = none := by
  by_cases h1 : 1 < a <;> simp [attemptEntry, h1, bGet, List.find?_cons, h]

lemma bGet_attemptEntry_self (a : Int) (h : 1 < a) :
    bGet (attemptEntry a) "botanu.attempt" = some (pyStrInt a) := by
  simp [attemptEntry, h, bGet, List.find?_cons]

lemma bGet_attemptEntry_one : bGet (attemptEntry 1) "botanu.attempt" = none := by
  simp [attemptEntry, bGet]

lemma bGet_deadlineEntry_ne (d : Option ℚ) (k : String)
    (h : ("botanu.deadline" == k) = false) : bGet (deadlineEntry d) k = none := by
  cases d with
  | none => rfl
  | some q => simp [deadlineEntry, bGet, List.find?_cons, h]

lemma bGet_cancelledEntry_ne (c : Bool) (k : String)
    (h : ("botanu.cancelled" == k) = false) : bGet (cancelledEntry c) k = none := by
  cases c <;> simp [cancelledEntry, bGet, List.find?_cons, h]

/-! ## Lookups over the full-mode carrier produced by the encoder -/

lemma bGet_full_run_id (ctx : RunContext) :
    bGet (ctx.to_baggage_dict false) "botanu.run_id" = some ctx.run_id := by
  simp [RunContext.to_baggage_dict, bGet_append, bGet_cons]

lemma bGet_full_workflow (ctx : RunContext) :
    bGet (ctx.to_baggage_dict false) "botanu.workflow" = some ctx.workflow := by
  simp [RunContext.to_baggage_dict, bGet_append, bGet_cons]

lemma bGet_full_event_id (ctx : RunContext) :
    bGet (ctx.to_baggage_dict false) "botanu.event_id" = some ctx.event_id := by
  simp [RunContext.to_baggage_dict, bGet_append, bGet_cons]

lemma bGet_full_customer_id (ctx : RunContext) :
    bGet (ctx.to_baggage_dict false) "botanu.customer_id" = some ctx.customer_id := by
  simp [RunContext.to_baggage_dict, bGet_append, bGet_cons]

lemma bGet_full_tenant_id (ctx : RunContext) (h : ctx.tenant_id ≠ some "") :
    bGet (ctx.to_baggage_dict false) "botanu.tenant_id" = ctx.tenant_id := by
  cases hten : ctx.tenant_id with
  | none =>
    simp [RunContext.to_baggage_dict, bGet_append, bGet_cons, hten,
      bGet_strOptEntry_none, bGet_strOptEntry_ne, bGet_rootEntry_ne,
      bGet_attemptEntry_ne, bGet_deadlineEntry_ne, bGet_cancelledEntry_ne]
  | some t =>
    have ht : t ≠ "" := by
      intro he
      exact h (by rw [hten, he])
    simp [RunContext.to_baggage_dict, bGet_append, bGet_cons, hten,
      bGet_strOptEntry_self _ _ ht]

lemma bGet_full_attempt_one (ctx : RunContext) (h : ctx.attempt = 1) :
    bGet (ctx.to_baggage_dict false) "botanu.attempt" = none := by
  simp [RunContext.to_baggage_dict, bGet_append, bGet_cons, h,
    bGet_strOptEntry_ne, bGet_rootEntry_ne, bGet_attemptEntry_one,
    bGet_deadlineEntry_ne, bGet_cancelledEntry_ne]

lemma bGet_full_attempt_gt (ctx : RunContext) (h : 1 < ctx.attempt) :
    bGet (ctx.to_baggage_dict false) "botanu.attempt" = some (pyStrInt ctx.attempt) := by
  simp [RunContext.to_baggage_dict, bGet_append, bGet_cons,
    bGet_strOptEntry_ne, bGet_rootEntry_ne, bGet_attemptEntry_self _ h]

/-! ## The retry chain (`create_retry` iterated) -/

lemma pyOr_some {s : String} (h : s ≠ "") (b : String) : pyOr (some s) b = s := by
  simp [pyOr, h]

lemma resolveEnv_some {e : String} (h : e ≠ "") (envB envD : Option String) :
    resolveEnv (some e) envB envD = e := by
  simp [resolveEnv, pyOr, h]

/-- The retry chain: `C 0 = c0` and `C (i+1) = create_retry (C i)`, where
`ids i` / `times i` are the run id generated and the clock read at step `i`. -/
def retryChain (c0 : RunContext) (ids : Nat → String) (times : Nat → ℚ)
    (envB envD : Option String) : Nat → RunContext
  | 0 => c0
  | i + 1 =>
    (retryChain c0 ids times envB envD i).create_retry (ids i) (times i) envB envD

lemma retryChain_invariant (c0 : RunContext) (ids : Nat → String) (times : Nat → ℚ)
    (envB envD : Option String) (h0 : c0.run_id ≠ "") (h1 : c0.attempt = 1)
    (h2 : c0.root_run_id = some c0.run_id) (h3 : c0.environment ≠ "") (i : Nat) :
    (retryChain c0 ids times envB envD i).workflow = c0.workflow ∧
    (retryChain c0 ids times envB envD i).event_id = c0.event_id ∧
    (retryChain c0 ids times envB envD i).customer_id = c0.customer_id ∧
    (retryChain c0 ids times envB envD i).workflow_version = c0.workflow_version ∧
    (retryChain c0 ids times envB envD i).environment = c0.environment ∧
    (retryChain c0 ids times envB envD i).tenant_id = c0.tenant_id ∧
    (retryChain c0 ids times envB envD i).parent_run_id = c0.parent_run_id ∧
    (retryChain c0 ids times envB envD i).root_run_id = some c0.run_id ∧
    (retryChain c0 ids times envB envD i).attempt = (i : Int) + 1 := by
  induction i with
  | zero => exact ⟨rfl, rfl, rfl, rfl, rfl, rfl, rfl, h2, by simp [retryChain, h1]⟩
  | succ i ih =>
    obtain ⟨hw, he, hc, hv, hen, ht, hp, hr, ha⟩ := ih
    refine ⟨?_, ?_, ?_, ?_, ?_, ?_, ?_, ?_, ?_⟩ <;>
      simp [retryChain, RunContext.create_retry, RunContext.create, hw, he, hc,
        hv, ht, hp, hen, resolveEnv_some h3, hr, pyOr_some h0, ha]

/-- **C4**: every step of a retry chain that starts at a first-attempt
context copies `workflow`, `event_id`, `customer_id`, `workflow_version`,
`environment`, `tenant_id` and `parent_run_id` from its predecessor, keeps
`root_run_id` equal to the chain head's `run_id`, has `attempt = i + 1`
(so the `(i+1)`-st element has attempt `i + 2`), links `retry_of_run_id`
to the predecessor's `run_id`, takes the freshly generated run id, and
inherits no deadline or cancellation state. -/
theorem c4_retry_chain (c0 : RunContext) (ids : Nat → String) (times : Nat → ℚ)
    (envB envD : Option String) (h0 : c0.run_id ≠ "") (h1 : c0.attempt = 1)
    (h2 : c0.root_run_id = some c0.run_id) (h3 : c0.environment ≠ "") (i : Nat) :
    (retryChain c0 ids times envB envD (i + 1)).workflow =
        (retryChain c0 ids times envB envD i).workflow ∧
    (retryChain c0 ids times envB envD (i + 1)).event_id =
        (retryChain c0 ids times envB envD i).event_id ∧
    (retryChain c0 ids times envB envD (i + 1)).customer_id =
        (retryChain c0 ids times envB envD i).customer_id ∧
    (retryChain c0 ids times envB envD (i + 1)).workflow_version =
        (retryChain c0 ids times envB envD i).workflow_version ∧
    (retryChain c0 ids times envB envD (i + 1)).environment =
        (retryChain c0 ids times envB envD i).environment ∧
    (retryChain c0 ids times envB envD (i + 1)).tenant_id =
        (retryChain c0 ids times envB envD i).tenant_id ∧
    (retryChain c0 ids times envB envD (i + 1)).parent_run_id =
        (retryChain c0 ids times envB envD i).parent_run_id ∧
    (retryChain c0 ids times envB envD (i + 1)).root_run_id = some c0.run_id ∧
    (retryChain c0 ids times envB envD (i + 1)).attempt = (i : Int) + 2 ∧
    (retryChain c0 ids times envB envD (i + 1)).retry_of_run_id =
        some (retryChain c0 ids times envB envD i).run_id ∧
    (retryChain c0 ids times envB envD (i + 1)).run_id = ids i ∧
    (retryChain c0 ids times envB envD (i + 1)).deadline = none ∧
    (retryChain c0 ids times envB envD (i + 1)).cancelled = false ∧
    (retryChain c0 ids times envB envD (i + 1)).cancelled_at = none := by
  obtain ⟨hw, he, hc, hv, hen, ht, hp, hr, ha⟩ :=
    retryChain_invariant c0 ids times envB envD h0 h1 h2 h3 i
  obtain ⟨hw', he', hc', hv', hen', ht', hp', hr', ha'⟩ :=
    retryChain_invariant c0 ids times envB envD h0 h1 h2 h3 (i + 1)
  refine ⟨by rw [hw, hw'], by rw [he, he'], by rw [hc, hc'], by rw [hv, hv'],
    by rw [hen, hen'], by rw [ht, ht'], by rw [hp, hp'], hr', ?_, ?_, ?_, ?_, ?_, ?_⟩
  · rw [ha']
    push_cast
    ring
  · simp [retryChain, RunContext.create_retry, RunContext.create]
  · simp [retryChain, RunContext.create_retry, RunContext.create]
  · simp [retryChain, RunContext.create_retry, RunContext.create]
  · simp [retryChain, RunContext.create_retry, RunContext.create]
  · simp [retryChain, RunContext.create_retry, RunContext.create]

/-- A concrete first-attempt context for witnesses. -/
def c4c0 : RunContext :=
  RunContext.create "W" "e" "c" none none none none none 1 none none "r0" 0 none none

/-- Witness for **C4**: the hypotheses hold at a concrete factory-built
first-attempt context and the theorem applies there. -/
theorem c4_retry_chain_witness :
    c4c0.run_id ≠ "" ∧ c4c0.attempt = 1 ∧ c4c0.root_run_id = some c4c0.run_id ∧
    c4c0.environment ≠ "" ∧
    (retryChain c4c0 (fun _ => "r1") (fun _ => 1) none none 1).root_run_id =
      some c4c0.run_id ∧
    (retryChain c4c0 (fun _ => "r1") (fun _ => 1) none none 1).attempt =
      (0 : Int) + 2 := by
  obtain ⟨-, -, -, -, -, -, -, hroot, hatt, -⟩ :=
    c4_retry_chain c4c0 (fun _ => "r1") (fun _ => 1) none none
      (by decide) (by decide) (by decide) (by decide) 0
  exact ⟨by decide, by decide, by decide, by decide, hroot, hatt⟩

/-! ## C5: full-mode round trip -/

/-- **C5** (counterexample): the round trip is not exact for *every*
`RunContext` — a context with `attempt = 0` encodes without an attempt
entry and decodes with `attempt = 1`. -/
def c5ctx : RunContext :=
  { run_id := "rid-1"
    workflow := "wf"
    event_id := "e"
    customer_id := "c"
    environment := "production"
    workflow_version := none
    tenant_id := none
    parent_run_id := none
    root_run_id := some "rid-1"
    attempt := 0
    retry_of_run_id := none
    start_time := 0
    deadline := none
    cancelled := false
    cancelled_at := none
    outcome := none }

/-- **C5** counterexample: encoding `c5ctx` (whose `attempt` is `0`) in
full mode and decoding yields `attempt = 1 ≠ 0`, so the round trip does
not reconstruct `attempt` exactly for every `RunContext`. -/
theorem c5_counterexample :
    (RunContext.from_baggage (c5ctx.to_baggage_dict false) 0).map
        (fun c => c.attempt) = some 1 ∧
      c5ctx.attempt = 0 := by
  constructor <;> decide

/-- **C5** (amended): for every `RunContext` whose `run_id` and `workflow`
are non-empty, whose `attempt` is at least 1, and whose `tenant_id` is not
the empty string, encoding in full mode and decoding reconstructs
`run_id`, `workflow`, `event_id`, `customer_id`, `tenant_id` and `attempt`
exactly. -/
theorem c5_full_roundtrip (ctx : RunContext) (now : ℚ)
    (h1 : ctx.run_id ≠ "") (h2 : ctx.workflow ≠ "")
    (h3 : 1 ≤ ctx.attempt) (h4 : ctx.tenant_id ≠ some "") :
    (RunContext.from_baggage (ctx.to_baggage_dict false) now).map
        (fun c => c.run_id) = some ctx.run_id ∧
    (RunContext.from_baggage (ctx.to_baggage_dict false) now).map
        (fun c => c.workflow) = some ctx.workflow ∧
    (RunContext.from_baggage (ctx.to_baggage_dict false) now).map
        (fun c => c.event_id) = some ctx.event_id ∧
    (RunContext.from_baggage (ctx.to_baggage_dict false) now).map
        (fun c => c.customer_id) = some ctx.customer_id ∧
    (RunContext.from_baggage (ctx.to_baggage_dict false) now).map
        (fun c => c.tenant_id) = some ctx.tenant_id ∧
    (RunContext.from_baggage (ctx.to_baggage_dict false) now).map
        (fun c => c.attempt) = some ctx.attempt := by
  have hrun := bGet_full_run_id ctx
  have hwf := bGet_full_workflow ctx
  have hev := bGet_full_event_id ctx
  have hcu := bGet_full_customer_id ctx
  have hten := bGet_full_tenant_id ctx h4
  have hatt : (pyParseInt ((bGet (ctx.to_baggage_dict false)
      "botanu.attempt").getD "1")).getD 1 = ctx.attempt := by
    rcases eq_or_lt_of_le h3 with heq | hgt
    · rw [bGet_full_attempt_one ctx heq.symm]
      have hone : pyParseInt "1" = some 1 := by decide
      simp [hone, heq]
    · rw [bGet_full_attempt_gt ctx hgt]
      simp [pyParseInt_pyStrInt_of_nonneg (by omega : (0 : Int) ≤ ctx.attempt)]
  have htr1 : pyTruthy (some ctx.run_id) = true := by simp [pyTruthy, h1]
  have htr2 : pyTruthy (some ctx.workflow) = true := by simp [pyTruthy, h2]
  refine ⟨?_, ?_, ?_, ?_, ?_, ?_⟩ <;>
    simp [RunContext.from_baggage, hrun, hwf, hev, hcu, hten, hatt, htr1, htr2]

/-- Witness for **C5**: the amended round trip holds at a concrete
context with `attempt = 3` and a tenant. -/
theorem c5_full_roundtrip_witness :
    ({ c5ctx with attempt := 3, tenant_id := some "t1" } : RunContext).run_id ≠ "" ∧
    (RunContext.from_baggage
        (({ c5ctx with attempt := 3, tenant_id := some "t1" } :
          RunContext).to_baggage_dict false) 0).map (fun c => c.attempt) =
      some ({ c5ctx with attempt := 3, tenant_id := some "t1" } :
        RunContext).attempt := by
  refine ⟨by decide, ?_⟩
  exact (c5_full_roundtrip { c5ctx with attempt := 3, tenant_id := some "t1" } 0
    (by decide) (by decide) (by decide) (by decide)).2.2.2.2.2

/-! ## C6: decode robustness -/

/-- **C6**: a carrier lacking the namespaced `run_id` or `workflow` key
decodes to `none` (and never raises — the embedding is total); when both
are present (with usable, non-empty values), a non-integer `attempt` value
decodes to `attempt = 1` and a malformed `deadline` value decodes to an
absent deadline. -/
theorem c6_decode_robustness (b : List (String × String)) (now : ℚ) :
    ((bGet b "botanu.run_id" = none ∨ bGet b "botanu.workflow" = none) →
      RunContext.from_baggage b now = none) ∧
    (∀ rid wf, bGet b "botanu.run_id" = some rid → rid ≠ "" →
      bGet b "botanu.workflow" = some wf → wf ≠ "" →
      (RunContext.from_baggage b now).isSome = true ∧
      (∀ a, bGet b "botanu.attempt" = some a → pyParseInt a = none →
        (RunContext.from_baggage b now).map (fun c => c.attempt) = some 1) ∧
      (∀ d, bGet b "botanu.deadline" = some d → pyParseRat d = none →
        (RunContext.from_baggage b now).map (fun c => c.deadline) =
          some none)) := by
  constructor
  · intro h
    rcases h with h | h <;> simp [RunContext.from_baggage, h, pyTruthy]
  · intro rid wf hr hrne hw hwne
    have htr1 : pyTruthy (some rid) = true := by simp [pyTruthy, hrne]
    have htr2 : pyTruthy (some wf) = true := by simp [pyTruthy, hwne]
    refine ⟨by simp [RunContext.from_baggage, hr, hw, htr1, htr2], ?_, ?_⟩
    · intro a ha hpa
      simp [RunContext.from_baggage, hr, hw, htr1, htr2, ha, hpa]
    · intro d hd hpd
      by_cases hde : d = "" <;>
        simp [RunContext.from_baggage, hr, hw, htr1, htr2, hd, hde, hpd]

/-- Witness for **C6**: a concrete carrier with a non-integer attempt and
a malformed deadline decodes with the fallback values, and the empty
carrier decodes to `none`. -/
theorem c6_decode_robustness_witness :
    RunContext.from_baggage [] 0 = none ∧
    (RunContext.from_baggage
        [("botanu.run_id", "r"), ("botanu.workflow", "w"),
          ("botanu.attempt", "x7"), ("botanu.deadline", "soon")] 0).map
      (fun c => c.attempt) = some 1 ∧
    (RunContext.from_baggage
        [("botanu.run_id", "r"), ("botanu.workflow", "w"),
          ("botanu.attempt", "x7"), ("botanu.deadline", "soon")] 0).map
      (fun c => c.deadline) = some none := by
  obtain ⟨-, hatt, hdl⟩ :=
    (c6_decode_robustness
      [("botanu.run_id", "r"), ("botanu.workflow", "w"),
        ("botanu.attempt", "x7"), ("botanu.deadline", "soon")] 0).2
      "r" "w" (by decide) (by decide) (by decide) (by decide)
  exact ⟨(c6_decode_robustness [] 0).1 (Or.inl rfl),
    hatt "x7" (by decide) (by decide), hdl "soon" (by decide) (by decide)⟩

/-! ## Span attributes and generic association-list state -/

/-- Span attribute and event values (`str | int | float | bool`). -/
inductive Val
  | s (v : String)
  | i (v : Int)
  | q (v : ℚ)
  | b (v : Bool)
deriving DecidableEq, Repr

/-- Lookup in an association list keyed by strings (first match). -/
def getKV {β : Type} (c : List (String × β)) (k : String) : Option β :=
  (c.find? (fun p => p.1 == k)).map (fun p => p.2)

/-- Upsert in an association list keyed by strings: replace the first
entry with the key (Python dicts have unique keys) or append a new one
(models both OTel `set_attribute` and `set_baggage`). -/
def setKV {β : Type} : List (String × β) → String → β → List (String × β)
  | [], k, v => [(k, v)]
  | p :: t, k, v => if p.1 == k then (k, v) :: t else p :: setKV t k v

lemma getKV_setKV_self {β : Type} (c : List (String × β)) (k : String) (v : β) :
    getKV (setKV c k v) k = some v := by
  induction c with
  | nil => simp [getKV, setKV, List.find?_cons]
  | cons p t ih =>
    by_cases hp : (p.1 == k) = true
    · simp [getKV, setKV, hp, List.find?_cons]
    · simpa [getKV, setKV, hp, List.find?_cons] using ih

lemma getKV_setKV_ne {β : Type} (c : List (String × β)) (k k' : String) (v : β)
    (h : (k == k') = false) : getKV (setKV c k v) k' = getKV c k' := by
  induction c with
  | nil => simp [getKV, setKV, List.find?_cons, h]
  | cons p t ih =>
    by_cases hp : (p.1 == k) = true
    · have hpk : p.1 = k := by simpa using hp
      have hp' : (p.1 == k') = false := by
        rw [hpk]
        exact h
      simp [getKV, setKV, hp, hp', h, List.find?_cons]
    · by_cases hp' : (p.1 == k') = true
      · simp [getKV, setKV, hp, hp', List.find?_cons]
      · simpa [getKV, setKV, hp, hp', List.find?_cons] using ih

/-! ## `run_context.py`: span-attribute projection -/

/-- `RunContext.duration_ms` (`run_context.py`): `None` before completion,
wall-clock delta from `start_time` (in ms) once an outcome is set; `now`
is the clock reading at the property access. -/
def RunContext.duration_ms (ctx : RunContext) (now : ℚ) : Option ℚ :=
  match ctx.outcome with
  | none => none
  | some _ => some ((now - ctx.start_time) * 1000)

/-- `if v: attrs[k] = v` for an optional string projected as a span value. -/
def strValEntry (v : Option String) (k : String) : List (String × Val) :=
  match v with
  | none => []
  | some s => if s = "" then [] else [(k, Val.s s)]

/-- `RunContext.to_span_attributes` (`run_context.py`); the ISO-8601 text
of `start_time` is modelled by the instant itself. -/
def RunContext.to_span_attributes (ctx : RunContext) (now : ℚ) :
    List (String × Val) :=
  [("botanu.run_id", Val.s ctx.run_id), ("botanu.workflow", Val.s ctx.workflow),
    ("botanu.event_id", Val.s ctx.event_id),
    ("botanu.customer_id", Val.s ctx.customer_id),
    ("botanu.environment", Val.s ctx.environment),
    ("botanu.run.start_time", Val.q ctx.start_time)]
  ++ strValEntry ctx.workflow_version "botanu.workflow.version"
  ++ strValEntry ctx.tenant_id "botanu.tenant_id"
  ++ strValEntry ctx.parent_run_id "botanu.parent_run_id"
  ++ [("botanu.root_run_id", Val.s (pyOr ctx.root_run_id ctx.run_id))]
  ++ [("botanu.attempt", Val.i ctx.attempt)]
  ++ strValEntry ctx.retry_of_run_id "botanu.retry_of_run_id"
  ++ (match ctx.deadline with
      | none => []
      | some d => [("botanu.run.deadline_ts", Val.q d)])
  ++ (if ctx.cancelled then
        [("botanu.run.cancelled", Val.b true)]
        ++ (match ctx.cancelled_at with
            | none => []
            | some t => if t = 0 then [] else [("botanu.run.cancelled_at", Val.q t)])
      else [])
  ++ (match ctx.outcome with
      | none => []
      | some o =>
        [("botanu.outcome.status", Val.s o.status.value)]
        ++ strValEntry o.reason_code "botanu.outcome.reason_code"
        ++ strValEntry o.error_class "botanu.outcome.error_class"
        ++ strValEntry o.value_type "botanu.outcome.value_type"
        ++ (match o.value_amount with
            | none => []
            | some a => [("botanu.outcome.value_amount", Val.q a)])
        ++ (match o.confidence with
            | none => []
            | some cf => [("botanu.outcome.confidence", Val.q cf)])
        ++ (match ctx.duration_ms now with
            | none => []
            | some d => [("botanu.run.duration_ms", Val.q d)]))

/-! ## `decorators.py`: the run-scope orchestrator -/

/-- A decorator argument: a static string, or a callable resolver invoked
with the wrapped function's arguments (`α` stands for `(*args, **kwargs)`). -/
inductive ArgSpec (α : Type)
  | static (s : String)
  | resolver (f : α → String)

/-- `event_id(*args, **kwargs) if callable(event_id) else event_id`. -/
def resolveArg {α : Type} (spec : ArgSpec α) (args : α) : String :=
  match spec with
  | .static s => s
  | .resolver f => f args

/-- `isinstance(x, str) and not x`: a static empty string. -/
def isEmptyStatic {α : Type} : ArgSpec α → Bool
  | .static s => s == ""
  | .resolver _ => false

/-- The decoration-time checks of `botanu_workflow` (`decorators.py`
lines 97-104): only statically supplied strings are checked for
emptiness; callables pass through unchecked. -/
def botanu_workflow_validate {α : Type} (event_id customer_id : ArgSpec α) :
    Except String Unit :=
  if isEmptyStatic event_id then
    Except.error "event_id is required and must be a non-empty string"
  else if isEmptyStatic customer_id then
    Except.error "customer_id is required and must be a non-empty string"
  else Except.ok ()

/-- The context construction performed by `sync_wrapper` / `async_wrapper`
at call time (`decorators.py` lines 176-187): resolve the argument specs
and call the factory — with no emptiness validation.  `ambientRunId` is
`_get_parent_run_id()`. -/
def syncWrapperCreate {α : Type} (name : String) (event_id customer_id : ArgSpec α)
    (environment tenant_id : Option String) (workflow_version : String) (args : α)
    (ambientRunId : Option String) (run_id : String) (now : ℚ)
    (envB envD : Option String) : RunContext :=
  RunContext.create name (resolveArg event_id args) (resolveArg customer_id args)
    (some workflow_version) environment tenant_id ambientRunId none 1 none none
    run_id now envB envD

/-- The success-path outcome inference (`decorators.py` lines 212-218):
auto-complete with `SUCCESS` only when the *span attributes* carry no
`botanu.outcome.status` and `auto_outcome_on_success` is set.  (It does
not consult `run_ctx.outcome`.) -/
def finalizeSuccess (spanAttrs : List (String × Val))
    (auto_outcome_on_success : Bool) (run_ctx : RunContext) : RunContext :=
  if (getKV spanAttrs "botanu.outcome.status").isNone && auto_outcome_on_success then
    run_ctx.complete RunStatus.success none none none none none
  else run_ctx

/-- Observable side effects of the orchestrator on the span, the ambient
carrier and the Attempt Ledger.  `ledgerEmit` is the effect an
`AttemptLedger` emission call would produce; it is part of the alphabet so
that its absence from a trace is a statement about the code. -/
inductive Effect
  | setAttr (k : String) (v : Val)
  | addEvent (name : String) (attrs : List (String × Val))
  | setStatus (ok : Bool) (message : String)
  | recordException (error_class : String)
  | attachBaggage (entries : List (String × String))
  | detachBaggage
  | ledgerEmit (event_type : String) (attrs : List (String × Val))
deriving DecidableEq, Repr

/-- Whether an effect is an Attempt Ledger emission. -/
def Effect.isLedgerEmit : Effect → Bool
  | .ledgerEmit _ _ => true
  | _ => false

/-- The event attribute set built by `_emit_run_completed`
(`decorators.py` lines 251-264). -/
def runCompletedEventAttrs (now : ℚ) (run_ctx : RunContext) (status : RunStatus)
    (error_class : Option String) : List (String × Val) :=
  [("run_id", Val.s run_ctx.run_id), ("workflow", Val.s run_ctx.workflow),
    ("status", Val.s status.value),
    ("duration_ms", Val.q ((now - run_ctx.start_time) * 1000))]
  ++ strValEntry error_class "error_class"
  ++ (match run_ctx.outcome with
      | none => []
      | some o => strValEntry o.value_type "value_type")
  ++ (match run_ctx.outcome with
      | none => []
      | some o =>
        match o.value_amount with
        | none => []
        | some va => [("value_amount", Val.q va)])

/-- `_emit_run_completed` (`decorators.py` lines 245-269): adds the
`botanu.run.completed` span event and sets the outcome-status and
duration span attributes.  It performs no Attempt Ledger emission. -/
def emitRunCompleted (now : ℚ) (run_ctx : RunContext) (status : RunStatus)
    (error_class : Option String) : List Effect :=
  [Effect.addEvent "botanu.run.completed"
      (runCompletedEventAttrs now run_ctx status error_class),
    Effect.setAttr "botanu.outcome.status" (Val.s status.value),
    Effect.setAttr "botanu.run.duration_ms"
      (Val.q ((now - run_ctx.start_time) * 1000))]

/-- How the wrapped body exits: normal return, a raised `Exception`
subclass, or a `BaseException`-derived cancellation (which the wrappers'
`except Exception` clause does not catch, while `finally` still runs). -/
inductive BodyOutcome (T : Type)
  | ok (v : T)
  | exn (error_class message : String)
  | cancelled (error_class message : String)

/-- The observable outcome of one orchestrator scope. -/
structure ScopeRun (T : Type) where
  result : BodyOutcome T
  effects : List Effect
  duringContext : List (String × String)
  finalContext : List (String × String)
  finalRunCtx : RunContext

/-- The per-key `set_baggage` loop building the composite carrier update. -/
def otelSetBaggageAll (c : List (String × String)) (kvs : List (String × String)) :
    List (String × String) :=
  kvs.foldl (fun acc kv => setKV acc kv.1 kv.2) c

/-- The span-attribute state after projecting the context and applying the
body's own attribute writes. -/
def spanStateAfterBody (run_ctx : RunContext) (now_start : ℚ)
    (bodyAttrs : List (String × Val)) : List (String × Val) :=
  bodyAttrs.foldl (fun a kv => setKV a kv.1 kv.2)
    ((run_ctx.to_span_attributes now_start).foldl (fun a kv => setKV a kv.1 kv.2) [])

/-- `sync_wrapper` (`decorators.py` lines 175-236), given the already
constructed `run_ctx`: project the context onto the span, add the
`started` event, build the composite baggage carrier and attach it once
(`attach` publishes the new context and returns the previous one as the
token), run the body, then — in the success branch — infer the default
outcome, mark the span OK and emit the completed marker; in the
`except Exception` branch record the failure and re-raise; a
`BaseException` cancellation bypasses the `except` clause; the `finally`
block always detaches the token, restoring the pre-entry context. -/
def syncWrapperRun {T : Type} (ambient : List (String × String))
    (run_ctx : RunContext) (lean_mode auto_outcome_on_success : Bool)
    (body : BodyOutcome T) (bodyAttrs : List (String × Val))
    (now_start now_end : ℚ) : ScopeRun T :=
  let projected := run_ctx.to_span_attributes now_start
  let startedEffects : List Effect :=
    projected.map (fun kv => Effect.setAttr kv.1 kv.2)
      ++ [Effect.addEvent "botanu.run.started"
            [("run_id", Val.s run_ctx.run_id), ("workflow", Val.s run_ctx.workflow)]]
  let bag := run_ctx.to_baggage_dict lean_mode
  let attached := otelSetBaggageAll ambient bag
  let token := ambient
  let spanAttrs := spanStateAfterBody run_ctx now_start bodyAttrs
  match body with
  | .ok v =>
    let ctx1 := finalizeSuccess spanAttrs auto_outcome_on_success run_ctx
    { result := .ok v
      effects := startedEffects ++ [.attachBaggage bag]
        ++ bodyAttrs.map (fun kv => Effect.setAttr kv.1 kv.2)
        ++ [.setStatus true ""]
        ++ emitRunCompleted now_end ctx1 RunStatus.success none
        ++ [.detachBaggage]
      duringContext := attached
      finalContext := token
      finalRunCtx := ctx1 }
  | .exn ec msg =>
    let ctx1 := run_ctx.complete RunStatus.failure none (some ec) none none none
    { result := .exn ec msg
      effects := startedEffects ++ [.attachBaggage bag]
        ++ bodyAttrs.map (fun kv => Effect.setAttr kv.1 kv.2)
        ++ [.setStatus false msg, .recordException ec]
        ++ emitRunCompleted now_end ctx1 RunStatus.failure (some ec)
        ++ [.detachBaggage]
      duringContext := attached
      finalContext := token
      finalRunCtx := ctx1 }
  | .cancelled ec msg =>
    { result := .cancelled ec msg
      effects := startedEffects ++ [.attachBaggage bag]
        ++ bodyAttrs.map (fun kv => Effect.setAttr kv.1 kv.2)
        ++ [.detachBaggage]
      duringContext := attached
      finalContext := token
      finalRunCtx := run_ctx }

/-- `run_botanu` (`decorators.py` lines 322-407): the context-manager
form; the source duplicates the decorator body with `yield` in place of
the wrapped call, so the translation coincides with `syncWrapperRun`
statement for statement. -/
def runBotanuRun {T : Type} (ambient : List (String × String))
    (run_ctx : RunContext) (lean_mode auto_outcome_on_success : Bool)
    (body : BodyOutcome T) (bodyAttrs : List (String × Val))
    (now_start now_end : ℚ) : ScopeRun T :=
  let projected := run_ctx.to_span_attributes now_start
  let startedEffects : List Effect :=
    projected.map (fun kv => Effect.setAttr kv.1 kv.2)
      ++ [Effect.addEvent "botanu.run.started"
            [("run_id", Val.s run_ctx.run_id), ("workflow", Val.s run_ctx.workflow)]]
  let bag := run_ctx.to_baggage_dict lean_mode
  let attached := otelSetBaggageAll ambient bag
  let token := ambient
  let spanAttrs := spanStateAfterBody run_ctx now_start bodyAttrs
  match body with
  | .ok v =>
    let ctx1 := finalizeSuccess spanAttrs auto_outcome_on_success run_ctx
    { result := .ok v
      effects := startedEffects ++ [.attachBaggage bag]
        ++ bodyAttrs.map (fun kv => Effect.setAttr kv.1 kv.2)
        ++ [.setStatus true ""]
        ++ emitRunCompleted now_end ctx1 RunStatus.success none
        ++ [.detachBaggage]
      duringContext := attached
      finalContext := token
      finalRunCtx := ctx1 }
  | .exn ec msg =>
    let ctx1 := run_ctx.complete RunStatus.failure none (some ec) none none none
    { result := .exn ec msg
      effects := startedEffects ++ [.attachBaggage bag]
        ++ bodyAttrs.map (fun kv => Effect.setAttr kv.1 kv.2)
        ++ [.setStatus false msg, .recordException ec]
        ++ emitRunCompleted now_end ctx1 RunStatus.failure (some ec)
        ++ [.detachBaggage]
      duringContext := attached
      finalContext := token
      finalRunCtx := ctx1 }
  | .cancelled ec msg =>
    { result := .cancelled ec msg
      effects := startedEffects ++ [.attachBaggage bag]
        ++ bodyAttrs.map (fun kv => Effect.setAttr kv.1 kv.2)
        ++ [.detachBaggage]
      duringContext := attached
      finalContext := token
      finalRunCtx := run_ctx }

/-! ## C1: the outcome field is not write-once -/

/-- A context whose outcome was set explicitly by application code. -/
def c1ctx : RunContext :=
  { c5ctx with
    attempt := 1
    outcome := some
      { status := RunStatus.partOk
        reason_code := none
        error_class := none
        value_type := some "tickets_resolved"
        value_amount := some 2
        confidence := none } }

/-- **C1** counterexample: with an outcome already set on the context
(status `partial`) and no `botanu.outcome.status` span attribute, the
orchestrator's automatic success inference replaces it with `success`,
and the failure handler's `complete` call likewise replaces it — the
outcome field is not write-once. -/
theorem c1_counterexample :
    c1ctx.outcome.map (fun o => o.status) = some RunStatus.partOk ∧
    (finalizeSuccess [] true c1ctx).outcome.map (fun o => o.status) =
      some RunStatus.success ∧
    (c1ctx.complete RunStatus.failure none (some "ValueError") none none
        none).outcome.map (fun o => o.status) = some RunStatus.failure := by
  refine ⟨rfl, by decide, rfl⟩

/-- **C1** (amended): `RunContext.complete` unconditionally replaces the
outcome; the completion path's automatic success inference skips the
overwrite only when the *span attributes* already carry
`botanu.outcome.status` — it never consults the context's own outcome
field — and otherwise (with `auto_outcome_on_success`) overwrites with
`success`. -/
theorem c1_outcome_write_behavior (ctx : RunContext) (attrs : List (String × Val))
    (auto : Bool) (status : RunStatus) (rc ec vt : Option String)
    (va cf : Option ℚ) :
    ((ctx.complete status rc ec vt va cf).outcome =
      some { status := status, reason_code := rc, error_class := ec,
             value_type := vt, value_amount := va, confidence := cf }) ∧
    (getKV attrs "botanu.outcome.status" ≠ none →
      finalizeSuccess attrs auto ctx = ctx) ∧
    (getKV attrs "botanu.outcome.status" = none → auto = true →
      finalizeSuccess attrs auto ctx =
        ctx.complete RunStatus.success none none none none none) := by
  refine ⟨rfl, ?_, ?_⟩
  · intro h
    cases hK : getKV attrs "botanu.outcome.status" with
    | none => exact absurd hK h
    | some v => simp [finalizeSuccess, hK]
  · intro h ha
    subst ha
    simp [finalizeSuccess, h]

/-- Witness for **C1** (amended): both guard behaviours at concrete
inputs. -/
theorem c1_outcome_write_behavior_witness :
    finalizeSuccess [("botanu.outcome.status", Val.s "partial")] true c5ctx =
      c5ctx ∧
    finalizeSuccess [] true c5ctx =
      c5ctx.complete RunStatus.success none none none none none := by
  refine ⟨?_, ?_⟩
  · exact (c1_outcome_write_behavior c5ctx
      [("botanu.outcome.status", Val.s "partial")] true RunStatus.success
      none none none none none).2.1 (by decide)
  · exact (c1_outcome_write_behavior c5ctx [] true RunStatus.success
      none none none none none).2.2 rfl rfl

/-! ## C2: validation of empty identifiers -/

/-- **C2** counterexample: `RunContext.create` performs no validation — an
empty `event_id` produces a fully populated `RunContext` rather than an
`InvalidArgument` failure; the same holds on the orchestrator path when
the empty value comes from a callable resolver. -/
theorem c2_counterexample :
    (RunContext.create "W" "" "c" none none none none none 1 none none
      "rid" 0 none none).event_id = "" ∧
    (RunContext.create "W" "" "c" none none none none none 1 none none
      "rid" 0 none none).run_id = "rid" ∧
    (syncWrapperCreate "W" (ArgSpec.resolver (fun _ : Unit => ""))
      (ArgSpec.static "c") none none "v1" () none "rid" 0 none none).event_id
      = "" ∧
    (syncWrapperCreate "W" (ArgSpec.resolver (fun _ : Unit => ""))
      (ArgSpec.static "c") none none "v1" () none "rid" 0 none none).run_id
      = "rid" := by
  exact ⟨rfl, rfl, rfl, rfl⟩

/-- **C2** (amended): only the decorator's *statically* supplied
`event_id` / `customer_id` are validated, at decoration time, raising
`ValueError`; callable resolvers pass the check unconditionally, and both
the factory and the wrapper's resolution path construct the context with
whatever values they are given — empty or not — mutating nothing first. -/
theorem c2_validation_static_only {α : Type} (ev cu : ArgSpec α)
    (f g : α → String) (args : α) (name wv : String)
    (env ten aid : Option String) (rid : String) (now : ℚ)
    (envB envD : Option String) :
    (botanu_workflow_validate (ArgSpec.static "" : ArgSpec α) cu =
      Except.error "event_id is required and must be a non-empty string") ∧
    (isEmptyStatic ev = false →
      botanu_workflow_validate ev (ArgSpec.static "" : ArgSpec α) =
        Except.error "customer_id is required and must be a non-empty string") ∧
    (botanu_workflow_validate (ArgSpec.resolver f) (ArgSpec.resolver g) =
      Except.ok ()) ∧
    ((syncWrapperCreate name ev cu env ten wv args aid rid now envB
        envD).event_id = resolveArg ev args) ∧
    ((syncWrapperCreate name ev cu env ten wv args aid rid now envB
        envD).customer_id = resolveArg cu args) ∧
    ((syncWrapperCreate name ev cu env ten wv args aid rid now envB
        envD).run_id = rid) := by
  refine ⟨rfl, ?_, rfl, rfl, rfl, rfl⟩
  intro h
  simp only [botanu_workflow_validate, h, Bool.false_eq_true, if_false]
  rfl

/-- Witness for **C2** (amended): a non-empty static `event_id` together
with an empty static `customer_id` fails on the `customer_id` check, and
the wrapper constructs the context from the resolved values. -/
theorem c2_validation_static_only_witness :
    botanu_workflow_validate (ArgSpec.static "e1" : ArgSpec Unit)
      (ArgSpec.static "") =
      Except.error "customer_id is required and must be a non-empty string" ∧
    (syncWrapperCreate "W" (ArgSpec.static "e1" : ArgSpec Unit)
      (ArgSpec.static "") none none "v" () none "r" 0 none none).event_id =
      "e1" := by
  obtain ⟨-, h2, -, h4, -, -⟩ := c2_validation_static_only
    (ArgSpec.static "e1" : ArgSpec Unit) (ArgSpec.static "")
    (fun _ => "") (fun _ => "") () "W" "v" none none none "r" 0 none none
  exact ⟨h2 (by decide), h4⟩

/-! ## C8: the carrier scope is detached on every exit path -/

lemma otelSetBaggageAll_cons (c : List (String × String)) (p : String × String)
    (rest : List (String × String)) :
    otelSetBaggageAll c (p :: rest) = otelSetBaggageAll (setKV c p.1 p.2) rest := rfl

lemma getKV_otelSetBaggageAll_of_keys_ne (kvs : List (String × String))
    (c : List (String × String)) (k : String)
    (h : ∀ p ∈ kvs, (p.1 == k) = false) :
    getKV (otelSetBaggageAll c kvs) k = getKV c k := by
  induction kvs generalizing c with
  | nil => rfl
  | cons p t ih =>
    rw [otelSetBaggageAll_cons, ih _ (fun q hq => h q (List.mem_cons_of_mem p hq)),
      getKV_setKV_ne _ _ _ _ (h p (List.mem_cons_self p t))]

lemma fst_mem_strOptEntry {v : Option String} {k : String} {p : String × String}
    (h : p ∈ strOptEntry v k) : p.1 = k := by
  cases v with
  | none => simp [strOptEntry] at h
  | some s =>
    by_cases hs : s = "" <;> simp [strOptEntry, hs] at h
    rw [h]

lemma fst_mem_rootEntry {root : Option String} {rid : String} {p : String × String}
    (h : p ∈ rootEntry root rid) : p.1 = "botanu.root_run_id" := by
  cases root with
  | none => simp [rootEntry] at h
  | some r =>
    by_cases h1 : r = ""
    · simp [rootEntry, h1] at h
    · by_cases h2 : r = rid <;> simp [rootEntry, h1, h2] at h
      rw [h]

lemma fst_mem_attemptEntry {a : Int} {p : String × String}
    (h : p ∈ attemptEntry a) : p.1 = "botanu.attempt" := by
  by_cases h1 : 1 < a <;> simp [attemptEntry, h1] at h
  rw [h]

lemma fst_mem_deadlineEntry {d : Option ℚ} {p : String × String}
    (h : p ∈ deadlineEntry d) : p.1 = "botanu.deadline" := by
  cases d with
  | none => simp [deadlineEntry] at h
  | some q =>
    simp [deadlineEntry] at h
    rw [h]

lemma fst_mem_cancelledEntry {c : Bool} {p : String × String}
    (h : p ∈ cancelledEntry c) : p.1 = "botanu.cancelled" := by
  cases c <;> simp [cancelledEntry] at h
  rw [h]

/-- The full-mode carrier after its leading `run_id` entry. -/
def baggageRestFull (ctx : RunContext) : List (String × String) :=
  [("botanu.workflow", ctx.workflow), ("botanu.event_id", ctx.event_id),
    ("botanu.customer_id", ctx.customer_id),
    ("botanu.environment", ctx.environment)]
  ++ strOptEntry ctx.tenant_id "botanu.tenant_id"
  ++ strOptEntry ctx.parent_run_id "botanu.parent_run_id"
  ++ rootEntry ctx.root_run_id ctx.run_id
  ++ attemptEntry ctx.attempt
  ++ strOptEntry ctx.retry_of_run_id "botanu.retry_of_run_id"
  ++ deadlineEntry ctx.deadline
  ++ cancelledEntry ctx.cancelled

lemma to_baggage_dict_false_eq (ctx : RunContext) :
    ctx.to_baggage_dict false =
      ("botanu.run_id", ctx.run_id) :: baggageRestFull ctx := by
  simp [RunContext.to_baggage_dict, baggageRestFull]

lemma baggageRestFull_keys (ctx : RunContext) :
    ∀ p ∈ baggageRestFull ctx, (p.1 == "botanu.run_id") = false := by
  intro p hp
  simp only [baggageRestFull] at hp
  rcases List.mem_append.mp hp with hp | hcl
  swap
  · simp [fst_mem_cancelledEntry hcl]
  rcases List.mem_append.mp hp with hp | hdl
  swap
  · simp [fst_mem_deadlineEntry hdl]
  rcases List.mem_append.mp hp with hp | hs3
  swap
  · simp [fst_mem_strOptEntry hs3]
  rcases List.mem_append.mp hp with hp | hat
  swap
  · simp [fst_mem_attemptEntry hat]
  rcases List.mem_append.mp hp with hp | hrt
  swap
  · simp [fst_mem_rootEntry hrt]
  rcases List.mem_append.mp hp with hp | hs2
  swap
  · simp [fst_mem_strOptEntry hs2]
  rcases List.mem_append.mp hp with hp | hs1
  swap
  · simp [fst_mem_strOptEntry hs1]
  simp only [List.mem_cons, List.not_mem_nil, or_false] at hp
  rcases hp with h | h | h | h <;> simp [h]

/-- After the composite baggage attach, the ambient carrier maps
`botanu.run_id` to the scope's run id (either propagation mode). -/
lemma getKV_attached_run_id (ambient : List (String × String))
    (ctx : RunContext) (lm : Bool) :
    getKV (otelSetBaggageAll ambient (ctx.to_baggage_dict lm))
      "botanu.run_id" = some ctx.run_id := by
  cases lm with
  | false =>
    rw [to_baggage_dict_false_eq, otelSetBaggageAll_cons,
      getKV_otelSetBaggageAll_of_keys_ne _ _ _ (baggageRestFull_keys ctx),
      getKV_setKV_self]
  | true =>
    have hkeys : ∀ p ∈ [("botanu.workflow", ctx.workflow),
        ("botanu.event_id", ctx.event_id),
        ("botanu.customer_id", ctx.customer_id)],
        (p.1 == "botanu.run_id") = false := by
      intro p hp
      simp only [List.mem_cons, List.not_mem_nil, or_false] at hp
      rcases hp with h | h | h <;> simp [h]
    have heq : ctx.to_baggage_dict true =
        ("botanu.run_id", ctx.run_id) :: [("botanu.workflow", ctx.workflow),
          ("botanu.event_id", ctx.event_id),
          ("botanu.customer_id", ctx.customer_id)] := by
      simp [RunContext.to_baggage_dict]
    rw [heq, otelSetBaggageAll_cons,
      getKV_otelSetBaggageAll_of_keys_ne _ _ _ hkeys, getKV_setKV_self]

/-- **C8**: on every exit path of either orchestrator form — normal
return, raised exception, or cancellation — the baggage token is detached
in the `finally` block, so the ambient carrier after the scope equals the
pre-entry carrier and (provided the pre-entry carrier did not already map
it) no longer yields the scope's `run_id`, while the carrier active
*during* the scope did map `botanu.run_id` to it. -/
theorem c8_carrier_restored {T : Type} (ambient : List (String × String))
    (run_ctx : RunContext) (lm auto : Bool) (body : BodyOutcome T)
    (bodyAttrs : List (String × Val)) (now_start now_end : ℚ)
    (h : getKV ambient "botanu.run_id" ≠ some run_ctx.run_id) :
    (syncWrapperRun ambient run_ctx lm auto body bodyAttrs now_start
      now_end).finalContext = ambient ∧
    getKV (syncWrapperRun ambient run_ctx lm auto body bodyAttrs now_start
      now_end).duringContext "botanu.run_id" = some run_ctx.run_id ∧
    getKV (syncWrapperRun ambient run_ctx lm auto body bodyAttrs now_start
      now_end).finalContext "botanu.run_id" ≠ some run_ctx.run_id ∧
    (runBotanuRun ambient run_ctx lm auto body bodyAttrs now_start
      now_end).finalContext = ambient ∧
    getKV (runBotanuRun ambient run_ctx lm auto body bodyAttrs now_start
      now_end).duringContext "botanu.run_id" = some run_ctx.run_id ∧
    getKV (runBotanuRun ambient run_ctx lm auto body bodyAttrs now_start
      now_end).finalContext "botanu.run_id" ≠ some run_ctx.run_id := by
  cases body <;>
    exact ⟨rfl, getKV_attached_run_id ambient run_ctx lm, h,
      rfl, getKV_attached_run_id ambient run_ctx lm, h⟩

/-- Witness for **C8**: a cancellation exit at a concrete scope restores
the concrete pre-entry carrier. -/
theorem c8_carrier_restored_witness :
    (syncWrapperRun [("x", "y")] c4c0 true true
      (BodyOutcome.cancelled "CancelledError" "" : BodyOutcome Unit) [] 0
      1).finalContext = [("x", "y")] ∧
    getKV (syncWrapperRun [("x", "y")] c4c0 true true
      (BodyOutcome.cancelled "CancelledError" "" : BodyOutcome Unit) [] 0
      1).duringContext "botanu.run_id" = some c4c0.run_id := by
  obtain ⟨h1, h2, -, -, -, -⟩ := c8_carrier_restored [("x", "y")] c4c0 true true
    (BodyOutcome.cancelled "CancelledError" "" : BodyOutcome Unit) [] 0 1
    (by decide)
  exact ⟨h1, h2⟩

/-! ## C3: the completed lifecycle marker -/

/-- Whether an effect is the `botanu.run.completed` span event. -/
def Effect.isCompletedEvent : Effect → Bool
  | .addEvent n _ => n == "botanu.run.completed"
  | _ => false

lemma any_isLedgerEmit_setAttrs (l : List (String × Val)) :
    (l.map (fun kv => Effect.setAttr kv.1 kv.2)).any Effect.isLedgerEmit =
      false := by
  induction l with
  | nil => rfl
  | cons p t ih => simp [Effect.isLedgerEmit, ih]

lemma getKV_append {β : Type} (l1 l2 : List (String × β)) (k : String) :
    getKV (l1 ++ l2) k = (getKV l1 k).orElse (fun _ => getKV l2 k) := by
  simp only [getKV, List.find?_append]
  cases h : l1.find? (fun p => p.1 == k) <;> simp

lemma getKV_strValEntry_ne (v : Option String) (k k' : String)
    (h : (k == k') = false) : getKV (strValEntry v k) k' = none := by
  cases v with
  | none => rfl
  | some s =>
    by_cases hs : s = "" <;> simp [strValEntry, hs, getKV, List.find?_cons, h]

lemma getKV_strValEntry_self (s k : String) (hs : s ≠ "") :
    getKV (strValEntry (some s) k) k = some (Val.s s) := by
  simp [strValEntry, hs, getKV, List.find?_cons]

/-- **C3** counterexample: at a concrete successful scope the completed
marker is added to the span, but the effect trace of the whole wrapper
contains no Attempt Ledger emission — the marker is not emitted "on both
the traced unit of work and the Ledger". -/
theorem c3_counterexample :
    (syncWrapperRun [] c4c0 true true (BodyOutcome.ok ()) [] 0 1).effects.any
        Effect.isCompletedEvent = true ∧
    (syncWrapperRun [] c4c0 true true (BodyOutcome.ok ()) [] 0 1).effects.any
        Effect.isLedgerEmit = false := by
  constructor <;> decide

/-- **C3** (amended): whenever an orchestrator scope completes — normal
return or raised exception — a `botanu.run.completed` marker carrying the
status, the wall-clock duration computed from the context's `start_time`,
and any outcome value fields is emitted on the traced unit of work
(span); no Attempt Ledger emission occurs anywhere on the completion
path. -/
theorem c3_completed_marker {T : Type} (ambient : List (String × String))
    (run_ctx : RunContext) (lm auto : Bool) (bodyAttrs : List (String × Val))
    (now_start now_end : ℚ) (v : T) (ec msg : String) :
    ((syncWrapperRun ambient run_ctx lm auto (BodyOutcome.ok v) bodyAttrs
      now_start now_end).effects.any Effect.isLedgerEmit = false) ∧
    (Effect.addEvent "botanu.run.completed"
        (runCompletedEventAttrs now_end
          (finalizeSuccess (spanStateAfterBody run_ctx now_start bodyAttrs)
            auto run_ctx) RunStatus.success none) ∈
      (syncWrapperRun ambient run_ctx lm auto (BodyOutcome.ok v) bodyAttrs
        now_start now_end).effects) ∧
    ((syncWrapperRun ambient run_ctx lm auto
      (BodyOutcome.exn ec msg : BodyOutcome T) bodyAttrs now_start
      now_end).effects.any Effect.isLedgerEmit = false) ∧
    (Effect.addEvent "botanu.run.completed"
        (runCompletedEventAttrs now_end
          (run_ctx.complete RunStatus.failure none (some ec) none none none)
          RunStatus.failure (some ec)) ∈
      (syncWrapperRun ambient run_ctx lm auto
        (BodyOutcome.exn ec msg : BodyOutcome T) bodyAttrs now_start
        now_end).effects) ∧
    (∀ ctx' status ec',
      getKV (runCompletedEventAttrs now_end ctx' status ec') "status" =
        some (Val.s status.value)) ∧
    (∀ ctx' status ec',
      getKV (runCompletedEventAttrs now_end ctx' status ec') "duration_ms" =
        some (Val.q ((now_end - ctx'.start_time) * 1000))) ∧
    (∀ ctx' status ec' o vt, ctx'.outcome = some o → o.value_type = some vt →
      vt ≠ "" →
      getKV (runCompletedEventAttrs now_end ctx' status ec') "value_type" =
        some (Val.s vt)) ∧
    (∀ ctx' status ec' o va, ctx'.outcome = some o → o.value_amount = some va →
      getKV (runCompletedEventAttrs now_end ctx' status ec') "value_amount" =
        some (Val.q va)) := by
  refine ⟨?_, ?_, ?_, ?_, ?_, ?_, ?_, ?_⟩
  · simp [syncWrapperRun, emitRunCompleted, List.any_append,
      any_isLedgerEmit_setAttrs, Effect.isLedgerEmit]
  · simp [syncWrapperRun, emitRunCompleted, List.mem_append]
  · simp [syncWrapperRun, emitRunCompleted, List.any_append,
      any_isLedgerEmit_setAttrs, Effect.isLedgerEmit]
  · simp [syncWrapperRun, emitRunCompleted, List.mem_append]
  · intro ctx' status ec'
    simp [runCompletedEventAttrs, getKV, List.find?_append, List.find?_cons]
  · intro ctx' status ec'
    simp [runCompletedEventAttrs, getKV, List.find?_append, List.find?_cons]
  · intro ctx' status ec' o vt ho hvt hne
    simp only [runCompletedEventAttrs, getKV_append, ho, hvt]
    rw [getKV_strValEntry_self vt "value_type" hne,
      getKV_strValEntry_ne ec' "error_class" "value_type" (by decide)]
    simp [getKV, List.find?_cons]
  · intro ctx' status ec' o va ho hva
    simp only [runCompletedEventAttrs, getKV_append, ho, hva]
    rw [getKV_strValEntry_ne ec' "error_class" "value_amount" (by decide),
      getKV_strValEntry_ne o.value_type "value_type" "value_amount" (by decide)]
    simp [getKV, List.find?_cons]

/-- Witness for **C3** (amended): the marker's value fields at a concrete
context carrying an explicit outcome with business value. -/
theorem c3_completed_marker_witness :
    getKV (runCompletedEventAttrs 1 c1ctx RunStatus.success none)
      "duration_ms" = some (Val.q ((1 - c1ctx.start_time) * 1000)) ∧
    getKV (runCompletedEventAttrs 1 c1ctx RunStatus.success none)
      "value_type" = some (Val.s "tickets_resolved") ∧
    getKV (runCompletedEventAttrs 1 c1ctx RunStatus.success none)
      "value_amount" = some (Val.q 2) := by
  obtain ⟨-, -, -, -, -, hdur, hvt, hva⟩ := c3_completed_marker
    ([] : List (String × String)) c1ctx true true [] 0 1 () "E" "m"
  refine ⟨hdur c1ctx RunStatus.success none, ?_, ?_⟩
  · exact hvt c1ctx RunStatus.success none _ "tickets_resolved" rfl rfl
      (by decide)
  · exact hva c1ctx RunStatus.success none _ 2 rfl rfl

/-! ## `enricher.py`: the span enrichment bridge -/

/-- `RunContextEnricher.BAGGAGE_KEYS_FULL` (`enricher.py`). -/
def BAGGAGE_KEYS_FULL : List String :=
  ["botanu.run_id", "botanu.use_case", "botanu.workflow",
    "botanu.environment", "botanu.tenant_id", "botanu.parent_run_id"]

/-- `RunContextEnricher.BAGGAGE_KEYS_LEAN` (`enricher.py`). -/
def BAGGAGE_KEYS_LEAN : List String :=
  ["botanu.run_id", "botanu.use_case"]

/-- `self._baggage_keys` selected in `RunContextEnricher.__init__`. -/
def enricherKeys (lean_mode : Bool) : List String :=
  if lean_mode then BAGGAGE_KEYS_LEAN else BAGGAGE_KEYS_FULL

/-- The body of the `on_start` loop over an arbitrary key list: read the
baggage value; if truthy, copy it onto the span only when the span has no
attributes yet or lacks the key. -/
def enrichFold (keys : List String) (bag : String → Option String)
    (attrs : List (String × Val)) : List (String × Val) :=
  keys.foldl
    (fun a k =>
      match bag k with
      | none => a
      | some v =>
        if v = "" then a
        else if (a.isEmpty || (getKV a k).isNone) = true then setKV a k (Val.s v)
        else a)
    attrs

/-- `RunContextEnricher.on_start` (`enricher.py` lines 60-72). -/
def enricherOnStart (lean_mode : Bool) (bag : String → Option String)
    (attrs : List (String × Val)) : List (String × Val) :=
  enrichFold (enricherKeys lean_mode) bag attrs

lemma enrichFold_cons (k : String) (keys : List String)
    (bag : String → Option String) (attrs : List (String × Val)) :
    enrichFold (k :: keys) bag attrs =
      enrichFold keys bag
        (match bag k with
          | none => attrs
          | some v =>
            if v = "" then attrs
            else if (attrs.isEmpty || (getKV attrs k).isNone) = true then
              setKV attrs k (Val.s v)
            else attrs) := rfl

lemma getKV_isEmpty_none {β : Type} (a : List (String × β)) (k : String)
    (h : a.isEmpty = true) : getKV a k = none := by
  rw [List.isEmpty_iff.mp h]
  rfl

lemma enrichFold_preserves (keys : List String) (bag : String → Option String)
    (attrs : List (String × Val)) (k : String) (v : Val)
    (h : getKV attrs k = some v) :
    getKV (enrichFold keys bag attrs) k = some v := by
  induction keys generalizing attrs with
  | nil => exact h
  | cons k0 keys ih =>
    rw [enrichFold_cons]
    cases hb : bag k0 with
    | none => exact ih attrs h
    | some v0 =>
      dsimp only
      by_cases hv0 : v0 = ""
      · rw [if_pos hv0]
        exact ih attrs h
      · rw [if_neg hv0]
        by_cases hguard : (attrs.isEmpty || (getKV attrs k0).isNone) = true
        · have hk0 : (k0 == k) = false := by
            by_cases hek : k0 = k
            · subst hek
              rcases Bool.or_eq_true_iff.mp hguard with he | hn
              · rw [getKV_isEmpty_none attrs k0 he] at h
                simp at h
              · rw [Option.isNone_iff_eq_none.mp hn] at h
                simp at h
            · simp [hek]
          rw [if_pos hguard]
          exact ih _ (by rw [getKV_setKV_ne _ _ _ _ hk0]; exact h)
        · rw [if_neg hguard]
          exact ih attrs h

lemma enrichFold_copies (keys : List String) (bag : String → Option String)
    (attrs : List (String × Val)) (k : String) (v : String)
    (hmem : k ∈ keys) (habs : getKV attrs k = none) (hbag : bag k = some v)
    (hv : v ≠ "") :
    getKV (enrichFold keys bag attrs) k = some (Val.s v) := by
  induction keys generalizing attrs with
  | nil => exact absurd hmem (List.not_mem_nil k)
  | cons k0 keys ih =>
    rw [enrichFold_cons]
    by_cases hek : k0 = k
    · subst hek
      rw [hbag]
      dsimp only
      rw [if_neg hv]
      have hguard : (attrs.isEmpty || (getKV attrs k0).isNone) = true := by
        simp [habs]
      rw [if_pos hguard]
      exact enrichFold_preserves keys bag _ k0 (Val.s v) (getKV_setKV_self _ _ _)
    · have hmem' : k ∈ keys := by
        rcases List.mem_cons.mp hmem with h | h
        · exact absurd h.symm hek
        · exact h
      have hk0 : (k0 == k) = false := by simp [hek]
      cases hb : bag k0 with
      | none => exact ih attrs hmem' habs
      | some v0 =>
        dsimp only
        by_cases hv0 : v0 = ""
        · rw [if_pos hv0]
          exact ih attrs hmem' habs
        · rw [if_neg hv0]
          by_cases hguard : (attrs.isEmpty || (getKV attrs k0).isNone) = true
          · rw [if_pos hguard]
            exact ih _ hmem' (by rw [getKV_setKV_ne _ _ _ _ hk0]; exact habs)
          · rw [if_neg hguard]
            exact ih attrs hmem' habs

/-- **C9**: the enrichment bridge reads a fixed set of 2 (lean) or 6
(full) carrier keys; it copies a key onto the span only when the span
does not already have it, and it never overwrites an attribute the span
already has. -/
theorem c9_enricher (lm : Bool) (bag : String → Option String)
    (attrs : List (String × Val)) :
    (enricherKeys true).length = 2 ∧
    (enricherKeys false).length = 6 ∧
    (∀ k v, getKV attrs k = some v →
      getKV (enricherOnStart lm bag attrs) k = some v) ∧
    (∀ k, k ∈ enricherKeys lm → getKV attrs k = none →
      ∀ v, bag k = some v → v ≠ "" →
        getKV (enricherOnStart lm bag attrs) k = some (Val.s v)) := by
  refine ⟨rfl, rfl, ?_, ?_⟩
  · intro k v h
    exact enrichFold_preserves (enricherKeys lm) bag attrs k v h
  · intro k hmem habs v hbag hv
    exact enrichFold_copies (enricherKeys lm) bag attrs k v hmem habs hbag hv

/-- Witness for **C9**: at a concrete span and carrier, an existing
attribute survives and a missing carrier key is copied. -/
theorem c9_enricher_witness :
    getKV (enricherOnStart true
      (fun k => if k == "botanu.run_id" then some "r9" else none)
      [("x", Val.s "y")]) "x" = some (Val.s "y") ∧
    getKV (enricherOnStart true
      (fun k => if k == "botanu.run_id" then some "r9" else none)
      [("x", Val.s "y")]) "botanu.run_id" = some (Val.s "r9") := by
  obtain ⟨-, -, hpres, hcopy⟩ := c9_enricher true
    (fun k => if k == "botanu.run_id" then some "r9" else none)
    [("x", Val.s "y")]
  exact ⟨hpres "x" (Val.s "y") (by decide),
    hcopy "botanu.run_id" (by decide) (by decide) "r9" (by decide) (by decide)⟩

/-! ## `ledger.py`: the Attempt Ledger -/

/-- `AttemptLedger` (`ledger.py`): the dataclass state that the emission
path consults.  `initialized` is `self._initialized and self._logger`. -/
structure AttemptLedger where
  service_name : String
  initialized : Bool
deriving DecidableEq, Repr

/-- A structured record handed to the underlying sink. -/
structure LedgerRecord where
  event_name : String
  service_name : String
  timestamp_ms : Int
  severity : String
  trace : Option (String × String)
  attrs : List (String × Val)

/-- `AttemptLedger._emit` (`ledger.py` lines 112-142).  `sink` is the
outcome of the underlying `self._logger.emit(LogRecord(...))` call
(`Except.error` models a raised exception); the whole body is inside
`try/except`, so a sink failure is caught and logged and the method
returns normally.  The result is `Except.error` only if `_emit` itself
would raise — which the theorem shows it never does; the payload is the
record that reached the sink, if any. -/
def AttemptLedger.emit (l : AttemptLedger) (sink : Except String Unit)
    (traceCtx : Option (String × String)) (now_ms : Int)
    (event_type : String) (severity : String) (attributes : List (String × Val)) :
    Except String (Option LedgerRecord) :=
  if !l.initialized then Except.ok none
  else
    match sink with
    | Except.error _ => Except.ok none
    | Except.ok _ =>
      Except.ok (some
        { event_name := event_type
          service_name := l.service_name
          timestamp_ms := now_ms
          severity := severity
          trace := traceCtx
          attrs := attributes })

/-- `AttemptLedger.attempt_started` (`ledger.py`). -/
def AttemptLedger.attempt_started (l : AttemptLedger) (sink : Except String Unit)
    (traceCtx : Option (String × String)) (now_ms : Int)
    (run_id use_case : String) (attempt : Int) (root_run_id : Option String)
    (workflow tenant_id : Option String) (deadline_ts : Option ℚ) :
    Except String (Option LedgerRecord) :=
  l.emit sink traceCtx now_ms "attempt.started" "INFO"
    ([("botanu.run_id", Val.s run_id), ("botanu.use_case", Val.s use_case),
      ("botanu.attempt", Val.i attempt),
      ("botanu.root_run_id", Val.s (pyOr root_run_id run_id))]
      ++ (workflow.map (fun w => [("botanu.workflow", Val.s w)])).getD []
      ++ (tenant_id.map (fun t => [("botanu.tenant_id", Val.s t)])).getD []
      ++ (deadline_ts.map (fun d => [("botanu.deadline_ts", Val.q d)])).getD [])

/-- `AttemptLedger.attempt_ended` (`ledger.py`). -/
def AttemptLedger.attempt_ended (l : AttemptLedger) (sink : Except String Unit)
    (traceCtx : Option (String × String)) (now_ms : Int)
    (run_id status : String) (duration_ms : Option ℚ)
    (error_class reason_code : Option String) :
    Except String (Option LedgerRecord) :=
  l.emit sink traceCtx now_ms "attempt.ended"
    (if status = "success" then "INFO" else "WARN")
    ([("botanu.run_id", Val.s run_id), ("status", Val.s status)]
      ++ (duration_ms.map (fun d => [("duration_ms", Val.q d)])).getD []
      ++ (error_class.map (fun e => [("error_class", Val.s e)])).getD []
      ++ (reason_code.map (fun r => [("reason_code", Val.s r)])).getD [])

/-- `AttemptLedger.llm_attempted` (`ledger.py`). -/
def AttemptLedger.llm_attempted (l : AttemptLedger) (sink : Except String Unit)
    (traceCtx : Option (String × String)) (now_ms : Int)
    (run_id provider model operation : String) (attempt_number : Int)
    (input_tokens output_tokens cached_tokens : Int) (duration_ms : Option ℚ)
    (status : String) (error_class provider_request_id : Option String)
    (estimated_cost_usd : Option ℚ) : Except String (Option LedgerRecord) :=
  l.emit sink traceCtx now_ms "llm.attempted"
    (if status = "success" then "INFO" else "WARN")
    ([("botanu.run_id", Val.s run_id),
      ("gen_ai.provider.name", Val.s provider),
      ("gen_ai.request.model", Val.s model),
      ("gen_ai.operation.name", Val.s operation),
      ("botanu.attempt", Val.i attempt_number),
      ("gen_ai.usage.input_tokens", Val.i input_tokens),
      ("gen_ai.usage.output_tokens", Val.i output_tokens),
      ("botanu.usage.cached_tokens", Val.i cached_tokens),
      ("status", Val.s status)]
      ++ (duration_ms.map (fun d => [("duration_ms", Val.q d)])).getD []
      ++ (error_class.map (fun e => [("error_class", Val.s e)])).getD []
      ++ (provider_request_id.map
            (fun r => [("gen_ai.response.id", Val.s r)])).getD []
      ++ (estimated_cost_usd.map
            (fun c => [("botanu.cost.estimated_usd", Val.q c)])).getD [])

/-- `AttemptLedger.tool_attempted` (`ledger.py`). -/
def AttemptLedger.tool_attempted (l : AttemptLedger) (sink : Except String Unit)
    (traceCtx : Option (String × String)) (now_ms : Int)
    (run_id tool_name : String) (tool_call_id : Option String)
    (attempt_number : Int) (duration_ms : Option ℚ) (status : String)
    (error_class : Option String) (items_returned bytes_processed : Int) :
    Except String (Option LedgerRecord) :=
  l.emit sink traceCtx now_ms "tool.attempted"
    (if status = "success" then "INFO" else "WARN")
    ([("botanu.run_id", Val.s run_id), ("gen_ai.tool.name", Val.s tool_name)]
      ++ (tool_call_id.map (fun c => [("gen_ai.tool.call.id", Val.s c)])).getD []
      ++ [("botanu.attempt", Val.i attempt_number)]
      ++ (duration_ms.map (fun d => [("duration_ms", Val.q d)])).getD []
      ++ [("status", Val.s status)]
      ++ (error_class.map (fun e => [("error_class", Val.s e)])).getD []
      ++ [("items_returned", Val.i items_returned),
          ("bytes_processed", Val.i bytes_processed)])

/-- `AttemptLedger.cancel_requested` (`ledger.py`). -/
def AttemptLedger.cancel_requested (l : AttemptLedger) (sink : Except String Unit)
    (traceCtx : Option (String × String)) (now_ms : Int)
    (run_id reason : String) (requested_at_ms : Option ℚ) :
    Except String (Option LedgerRecord) :=
  l.emit sink traceCtx now_ms "cancellation.requested" "WARN"
    [("botanu.run_id", Val.s run_id), ("cancellation.reason", Val.s reason),
      ("cancellation.requested_at_ms",
        Val.q (requested_at_ms.getD (now_ms : ℚ)))]

/-- `AttemptLedger.cancel_acknowledged` (`ledger.py`). -/
def AttemptLedger.cancel_acknowledged (l : AttemptLedger)
    (sink : Except String Unit) (traceCtx : Option (String × String))
    (now_ms : Int) (run_id acknowledged_by : String) (latency_ms : Option ℚ) :
    Except String (Option LedgerRecord) :=
  l.emit sink traceCtx now_ms "cancellation.acknowledged" "INFO"
    ([("botanu.run_id", Val.s run_id),
      ("cancellation.acknowledged_by", Val.s acknowledged_by)]
      ++ (latency_ms.map (fun m => [("cancellation.latency_ms", Val.q m)])).getD [])

/-- `AttemptLedger.zombie_detected` (`ledger.py`). -/
def AttemptLedger.zombie_detected (l : AttemptLedger) (sink : Except String Unit)
    (traceCtx : Option (String × String)) (now_ms : Int)
    (run_id : String) (deadline_ts actual_end_ts zombie_duration_ms : ℚ)
    (component : String) : Except String (Option LedgerRecord) :=
  l.emit sink traceCtx now_ms "zombie.detected" "ERROR"
    [("botanu.run_id", Val.s run_id), ("deadline_ts", Val.q deadline_ts),
      ("actual_end_ts", Val.q actual_end_ts),
      ("zombie_duration_ms", Val.q zombie_duration_ms),
      ("zombie_component", Val.s component)]

/-- `AttemptLedger.redelivery_detected` (`ledger.py`). -/
def AttemptLedger.redelivery_detected (l : AttemptLedger)
    (sink : Except String Unit) (traceCtx : Option (String × String))
    (now_ms : Int) (run_id queue_name : String) (delivery_count : Int)
    (original_message_id : Option String) : Except String (Option LedgerRecord) :=
  l.emit sink traceCtx now_ms "redelivery.detected" "WARN"
    ([("botanu.run_id", Val.s run_id), ("queue.name", Val.s queue_name),
      ("delivery_count", Val.i delivery_count)]
      ++ (original_message_id.map
            (fun m => [("original_message_id", Val.s m)])).getD [])

/-- `AttemptLedger.flush` (`ledger.py` lines 354-366): returns `True`
when uninitialized, delegates to the provider's `force_flush` inside
`try/except`, and returns `False` — rather than raising — when that
call fails. -/
def AttemptLedger.flush (l : AttemptLedger)
    (providerFlush : Except String Bool) : Except String Bool :=
  if !l.initialized then Except.ok true
  else
    match providerFlush with
    | Except.ok b => Except.ok b
    | Except.error _ => Except.ok false

lemma emit_never_raises (l : AttemptLedger) (sink : Except String Unit)
    (traceCtx : Option (String × String)) (now_ms : Int)
    (event_type severity : String) (attributes : List (String × Val)) :
    ∃ r, l.emit sink traceCtx now_ms event_type severity attributes =
      Except.ok r := by
  by_cases h : l.initialized
  · cases sink with
    | error e => exact ⟨none, by simp [AttemptLedger.emit, h]⟩
    | ok u =>
      exact ⟨some
        { event_name := event_type
          service_name := l.service_name
          timestamp_ms := now_ms
          severity := severity
          trace := traceCtx
          attrs := attributes }, by simp [AttemptLedger.emit, h]⟩
  · exact ⟨none, by simp [AttemptLedger.emit,
      Bool.eq_false_iff.mpr h]⟩

/-- **C10**: every Ledger event-emission method (all 8 event types)
returns normally regardless of whether the ledger is uninitialized or the
sink raises — the failure is absorbed; `flush` returns a boolean success
indicator and never raises. -/
theorem c10_ledger_resilience (l : AttemptLedger) (sink : Except String Unit)
    (traceCtx : Option (String × String)) (now_ms : Int)
    (run_id use_case provider model operation tool_name reason
      acknowledged_by component queue_name status : String)
    (attempt input_tokens output_tokens cached_tokens items_returned
      bytes_processed delivery_count : Int)
    (root_run_id workflow tenant_id error_class reason_code tool_call_id
      provider_request_id original_message_id : Option String)
    (deadline_ts duration_ms requested_at_ms latency_ms
      estimated_cost_usd : Option ℚ)
    (dts aets zdm : ℚ) (providerFlush : Except String Bool) :
    (∃ r, l.attempt_started sink traceCtx now_ms run_id use_case attempt
      root_run_id workflow tenant_id deadline_ts = Except.ok r) ∧
    (∃ r, l.attempt_ended sink traceCtx now_ms run_id status duration_ms
      error_class reason_code = Except.ok r) ∧
    (∃ r, l.llm_attempted sink traceCtx now_ms run_id provider model
      operation attempt input_tokens output_tokens cached_tokens duration_ms
      status error_class provider_request_id estimated_cost_usd =
        Except.ok r) ∧
    (∃ r, l.tool_attempted sink traceCtx now_ms run_id tool_name tool_call_id
      attempt duration_ms status error_class items_returned bytes_processed =
        Except.ok r) ∧
    (∃ r, l.cancel_requested sink traceCtx now_ms run_id reason
      requested_at_ms = Except.ok r) ∧
    (∃ r, l.cancel_acknowledged sink traceCtx now_ms run_id acknowledged_by
      latency_ms = Except.ok r) ∧
    (∃ r, l.zombie_detected sink traceCtx now_ms run_id dts aets zdm
      component = Except.ok r) ∧
    (∃ r, l.redelivery_detected sink traceCtx now_ms run_id queue_name
      delivery_count original_message_id = Except.ok r) ∧
    (∃ b, l.flush providerFlush = Except.ok b) := by
  refine ⟨emit_never_raises l sink traceCtx now_ms _ _ _,
    emit_never_raises l sink traceCtx now_ms _ _ _,
    emit_never_raises l sink traceCtx now_ms _ _ _,
    emit_never_raises l sink traceCtx now_ms _ _ _,
    emit_never_raises l sink traceCtx now_ms _ _ _,
    emit_never_raises l sink traceCtx now_ms _ _ _,
    emit_never_raises l sink traceCtx now_ms _ _ _,
    emit_never_raises l sink traceCtx now_ms _ _ _, ?_⟩
  by_cases h : l.initialized
  · cases providerFlush with
    | ok b => exact ⟨b, by simp [AttemptLedger.flush, h]⟩
    | error e => exact ⟨false, by simp [AttemptLedger.flush, h]⟩
  · exact ⟨true, by simp [AttemptLedger.flush, Bool.eq_false_iff.mpr h]⟩

/-! ## `generate_run_id` (`run_context.py` lines 24-51) -/

set_option maxRecDepth 4000

/-- Lowercase hexadecimal digit character (`'0'` is 48, `'a'` is 97 =
87 + 10), as produced by Python's `bytes.hex()`. -/
def hexDigitChar (d : Nat) : Char :=
  if d < 10 then Char.ofNat (48 + d) else Char.ofNat (87 + d)

/-- `bytes.hex()` for one byte: two lowercase hex digits. -/
def byteHex (b : Nat) : List Char := [hexDigitChar (b / 16), hexDigitChar (b % 16)]

/-- `bytes.hex()` over a byte sequence. -/
def hexOfBytes (bs : List Nat) : List Char := (bs.map byteHex).flatten

/-- The six timestamp bytes: `(timestamp_ms >> k) & 0xFF` is
`ts / 2 ^ k % 256`. -/
def tsBytes (ts : Nat) : List Nat :=
  [ts / 2 ^ 40 % 256, ts / 2 ^ 32 % 256, ts / 2 ^ 24 % 256,
    ts / 2 ^ 16 % 256, ts / 2 ^ 8 % 256, ts % 256]

/-- The ten masked random bytes: byte 6 is `0x70 | (r0 & 0x0F)` =
`112 + r0 % 16` (disjoint bit ranges), byte 8 is `0x80 | (r2 & 0x3F)` =
`128 + r2 % 64`, the others are raw. -/
def randBytes (r : Fin 10 → Fin 256) : List Nat :=
  [112 + (r 0).val % 16, (r 1).val, 128 + (r 2).val % 64,
    (r 3).val, (r 4).val, (r 5).val, (r 6).val, (r 7).val, (r 8).val,
    (r 9).val]

/-- The 16 `uuid_bytes` assembled by `generate_run_id`. -/
def runIdBytes (ts : Nat) (r : Fin 10 → Fin 256) : List Nat :=
  [ts / 2 ^ 40 % 256, ts / 2 ^ 32 % 256, ts / 2 ^ 24 % 256,
    ts / 2 ^ 16 % 256, ts / 2 ^ 8 % 256, ts % 256,
    112 + (r 0).val % 16, (r 1).val, 128 + (r 2).val % 64,
    (r 3).val, (r 4).val, (r 5).val, (r 6).val, (r 7).val, (r 8).val,
    (r 9).val]

lemma runIdBytes_eq (ts : Nat) (r : Fin 10 → Fin 256) :
    runIdBytes ts r = tsBytes ts ++ randBytes r := rfl

/-- `hex_str[:8]-hex_str[8:12]-hex_str[12:16]-hex_str[16:20]-hex_str[20:]`. -/
def insertDashes (l : List Char) : List Char :=
  l.take 8 ++ '-' :: ((l.drop 8).take 4 ++ '-' :: ((l.drop 12).take 4
    ++ '-' :: ((l.drop 16).take 4 ++ '-' :: l.drop 20)))

/-- `generate_run_id` (`run_context.py`): `ts` is `int(time.time() * 1000)`
and `r` the ten `os.urandom` bytes. -/
def generate_run_id (ts : Nat) (r : Fin 10 → Fin 256) : String :=
  String.mk (insertDashes (hexOfBytes (runIdBytes ts r)))

/-- Big-endian value of the first six bytes (the high 48 bits). -/
def decode48 (bs : List Nat) : Nat :=
  (bs.take 6).foldl (fun a b => a * 256 + b) 0

/-- The random bits that survive the version/variant masking. -/
def maskedRand (r : Fin 10 → Fin 256) : List Nat :=
  [(r 0).val % 16, (r 1).val, (r 2).val % 64, (r 3).val, (r 4).val,
    (r 5).val, (r 6).val, (r 7).val, (r 8).val, (r 9).val]

lemma hexDigitChar_lt : ∀ d2 < 16, ∀ d1 < d2, hexDigitChar d1 < hexDigitChar d2 := by
  decide

lemma hexDigitChar_inj : ∀ d1 < 16, ∀ d2 < 16,
    hexDigitChar d1 = hexDigitChar d2 → d1 = d2 := by
  decide

lemma hexOfBytes_cons (b : Nat) (bs : List Nat) :
    hexOfBytes (b :: bs) = byteHex b ++ hexOfBytes bs := rfl

lemma hexOfBytes_append (l1 l2 : List Nat) :
    hexOfBytes (l1 ++ l2) = hexOfBytes l1 ++ hexOfBytes l2 := by
  simp [hexOfBytes, List.flatten_append]

lemma byteHex_lex {a b : Nat} (hb : b < 256) (h : a < b) :
    List.Lex (· < ·) (byteHex a) (byteHex b) := by
  rcases Nat.lt_trichotomy (a / 16) (b / 16) with hd | hd | hd
  · exact List.Lex.rel (hexDigitChar_lt (b / 16) (by omega) (a / 16) hd)
  · have hmod : a % 16 < b % 16 := by omega
    rw [byteHex, byteHex, hd]
    exact List.Lex.cons (List.Lex.rel (hexDigitChar_lt (b % 16) (by omega)
      (a % 16) hmod))
  · omega

lemma byteHex_inj {a b : Nat} (ha : a < 256) (hb : b < 256)
    (h : byteHex a = byteHex b) : a = b := by
  simp only [byteHex, List.cons.injEq, and_true] at h
  have e1 := hexDigitChar_inj (a / 16) (by omega) (b / 16) (by omega) h.1
  have e2 := hexDigitChar_inj (a % 16) (by omega) (b % 16) (by omega) h.2
  omega

lemma lex_append_of_lex : ∀ {l1 l2 : List Char}, List.Lex (· < ·) l1 l2 →
    l1.length = l2.length → ∀ t1 t2 : List Char,
    List.Lex (· < ·) (l1 ++ t1) (l2 ++ t2) := by
  intro l1
  induction l1 with
  | nil =>
    intro l2 h hlen t1 t2
    cases h with
    | nil => simp at hlen
  | cons x l1 ih =>
    intro l2 h hlen t1 t2
    cases h with
    | cons h' =>
      exact List.Lex.cons (ih h' (by simpa using hlen) t1 t2)
    | rel hr => exact List.Lex.rel hr

lemma lex_append_right (l : List Char) {t1 t2 : List Char}
    (h : List.Lex (· < ·) t1 t2) : List.Lex (· < ·) (l ++ t1) (l ++ t2) := by
  induction l with
  | nil => exact h
  | cons x l ih => exact List.Lex.cons ih

lemma lex_append_split : ∀ {a1 a2 b1 b2 : List Char},
    List.Lex (· < ·) (a1 ++ b1) (a2 ++ b2) → a1.length = a2.length →
    List.Lex (· < ·) a1 a2 ∨ (a1 = a2 ∧ List.Lex (· < ·) b1 b2) := by
  intro a1
  induction a1 with
  | nil =>
    intro a2 b1 b2 h hlen
    have ha2 : a2 = [] := List.length_eq_zero.mp hlen.symm
    subst ha2
    exact Or.inr ⟨rfl, h⟩
  | cons x a1 ih =>
    intro a2 b1 b2 h hlen
    cases a2 with
    | nil => simp at hlen
    | cons y a2 =>
      cases h with
      | cons h' =>
        rcases ih h' (by simpa using hlen) with hl | ⟨heq, hb⟩
        · exact Or.inl (List.Lex.cons hl)
        · exact Or.inr ⟨by rw [heq], hb⟩
      | rel hr => exact Or.inl (List.Lex.rel hr)

lemma hexOfBytes_lex : ∀ {bs1 bs2 : List Nat}, (∀ b ∈ bs2, b < 256) →
    bs1.length = bs2.length → List.Lex (· < ·) bs1 bs2 →
    List.Lex (· < ·) (hexOfBytes bs1) (hexOfBytes bs2) := by
  intro bs1
  induction bs1 with
  | nil =>
    intro bs2 _ hlen h
    cases h with
    | nil => simp at hlen
  | cons a bs1 ih =>
    intro bs2 hb2 hlen h
    cases bs2 with
    | nil => cases h
    | cons b bs2 =>
      rw [hexOfBytes_cons, hexOfBytes_cons]
      cases h with
      | cons h' =>
        exact lex_append_right (byteHex a)
          (ih (fun x hx => hb2 x (List.mem_cons_of_mem _ hx))
            (by simpa using hlen) h')
      | rel hr =>
        refine lex_append_of_lex
          (byteHex_lex (hb2 _ (List.mem_cons_self _ _)) hr) ?_ _ _
        simp [byteHex]

lemma tsBytes_lex (ts1 ts2 : Nat) (h12 : ts1 < ts2) (h2 : ts2 < 2 ^ 48) :
    List.Lex (· < ·) (tsBytes ts1) (tsBytes ts2) := by
  rw [tsBytes, tsBytes]
  rcases Nat.lt_trichotomy (ts1 / 2 ^ 40 % 256) (ts2 / 2 ^ 40 % 256) with
    h0 | h0 | h0
  · exact List.Lex.rel h0
  swap
  · exact absurd h0 (by omega)
  rw [h0]
  refine List.Lex.cons ?_
  rcases Nat.lt_trichotomy (ts1 / 2 ^ 32 % 256) (ts2 / 2 ^ 32 % 256) with
    h1 | h1 | h1
  · exact List.Lex.rel h1
  swap
  · exact absurd h1 (by omega)
  rw [h1]
  refine List.Lex.cons ?_
  rcases Nat.lt_trichotomy (ts1 / 2 ^ 24 % 256) (ts2 / 2 ^ 24 % 256) with
    h3 | h3 | h3
  · exact List.Lex.rel h3
  swap
  · exact absurd h3 (by omega)
  rw [h3]
  refine List.Lex.cons ?_
  rcases Nat.lt_trichotomy (ts1 / 2 ^ 16 % 256) (ts2 / 2 ^ 16 % 256) with
    h4 | h4 | h4
  · exact List.Lex.rel h4
  swap
  · exact absurd h4 (by omega)
  rw [h4]
  refine List.Lex.cons ?_
  rcases Nat.lt_trichotomy (ts1 / 2 ^ 8 % 256) (ts2 / 2 ^ 8 % 256) with
    h5 | h5 | h5
  · exact List.Lex.rel h5
  swap
  · exact absurd h5 (by omega)
  rw [h5]
  refine List.Lex.cons ?_
  exact List.Lex.rel (by omega)

lemma insertDashes_split_ts (ts : Nat) (Y : List Char) :
    insertDashes (hexOfBytes (tsBytes ts) ++ Y) =
      (hexOfBytes (tsBytes ts)).take 8 ++ '-' ::
        ((hexOfBytes (tsBytes ts)).drop 8 ++ '-' :: (Y.take 4 ++ '-' ::
          ((Y.drop 4).take 4 ++ '-' :: Y.drop 8))) := rfl

lemma tsBytes_bounds (ts : Nat) : ∀ b ∈ tsBytes ts, b < 256 := by
  intro b hb
  simp only [tsBytes, List.mem_cons, List.not_mem_nil, or_false] at hb
  rcases hb with h | h | h | h | h | h <;> omega

lemma randBytes_bounds (r : Fin 10 → Fin 256) : ∀ b ∈ randBytes r, b < 256 := by
  intro b hb
  simp only [randBytes, List.mem_cons, List.not_mem_nil, or_false] at hb
  have i0 := (r 0).isLt
  have i1 := (r 1).isLt
  have i2 := (r 2).isLt
  have i3 := (r 3).isLt
  have i4 := (r 4).isLt
  have i5 := (r 5).isLt
  have i6 := (r 6).isLt
  have i7 := (r 7).isLt
  have i8 := (r 8).isLt
  have i9 := (r 9).isLt
  rcases hb with h | h | h | h | h | h | h | h | h | h <;> omega

lemma hexOfBytes_inj : ∀ {bs1 bs2 : List Nat}, (∀ b ∈ bs1, b < 256) →
    (∀ b ∈ bs2, b < 256) → bs1.length = bs2.length →
    hexOfBytes bs1 = hexOfBytes bs2 → bs1 = bs2 := by
  intro bs1
  induction bs1 with
  | nil =>
    intro bs2 _ _ hlen _
    exact (List.length_eq_zero.mp hlen.symm).symm
  | cons a bs1 ih =>
    intro bs2 hb1 hb2 hlen h
    cases bs2 with
    | nil => simp at hlen
    | cons b bs2 =>
      rw [hexOfBytes_cons, hexOfBytes_cons] at h
      obtain ⟨hhead, htail⟩ := List.append_inj h (by simp [byteHex])
      have ha := hb1 a (List.mem_cons_self a bs1)
      have hbb := hb2 b (List.mem_cons_self b bs2)
      rw [byteHex_inj ha hbb hhead,
        ih (fun x hx => hb1 x (List.mem_cons_of_mem _ hx))
          (fun x hx => hb2 x (List.mem_cons_of_mem _ hx))
          (by simpa using hlen) htail]

lemma insertDashes_reassemble (l : List Char) :
    l.take 8 ++ ((l.drop 8).take 4 ++ ((l.drop 12).take 4 ++
      ((l.drop 16).take 4 ++ l.drop 20))) = l := by
  have d1 : (l.drop 8).drop 4 = l.drop 12 := by rw [List.drop_drop]
  have d2 : (l.drop 12).drop 4 = l.drop 16 := by rw [List.drop_drop]
  have d3 : (l.drop 16).drop 4 = l.drop 20 := by rw [List.drop_drop]
  calc l.take 8 ++ ((l.drop 8).take 4 ++ ((l.drop 12).take 4 ++
          ((l.drop 16).take 4 ++ l.drop 20)))
      = l.take 8 ++ ((l.drop 8).take 4 ++ ((l.drop 12).take 4 ++
          ((l.drop 16).take 4 ++ (l.drop 16).drop 4))) := by rw [d3]
    _ = l.take 8 ++ ((l.drop 8).take 4 ++ ((l.drop 12).take 4 ++
          ((l.drop 12).drop 4))) := by rw [List.take_append_drop, d2]
    _ = l.take 8 ++ ((l.drop 8).take 4 ++ ((l.drop 8).drop 4)) := by
          rw [List.take_append_drop, d1]
    _ = l.take 8 ++ l.drop 8 := by rw [List.take_append_drop]
    _ = l := List.take_append_drop 8 l

lemma insertDashes_inj {l1 l2 : List Char} (h1 : l1.length = 32)
    (h2 : l2.length = 32) (h : insertDashes l1 = insertDashes l2) :
    l1 = l2 := by
  rw [insertDashes, insertDashes] at h
  obtain ⟨e1, h⟩ := List.append_inj h (by simp [h1, h2])
  injection h with hx h
  obtain ⟨e2, h⟩ := List.append_inj h (by simp [h1, h2])
  injection h with hx h
  obtain ⟨e3, h⟩ := List.append_inj h (by simp [h1, h2])
  injection h with hx h
  obtain ⟨e4, h⟩ := List.append_inj h (by simp [h1, h2])
  injection h with hx e5
  rw [← insertDashes_reassemble l1, ← insertDashes_reassemble l2,
    e1, e2, e3, e4, e5]

/-- **C7**: (i) the high 48 bits of the generated identifier are the
millisecond timestamp, big-endian: decoding the first six bytes yields
`ts` whenever `ts < 2^48`; (ii) identifiers generated at different
millisecond timestamps compare lexicographically (as strings) in temporal
order, whatever the random bytes; (iii) identifiers generated in the same
millisecond coincide only when the random bytes agree on every bit that
survives the version/variant masking — distinct masked random draws give
distinct identifiers, which is the deterministic core of "unique with
overwhelming probability". -/
theorem c7_run_id_properties :
    (∀ (ts : Nat) (r : Fin 10 → Fin 256), ts < 2 ^ 48 →
      decode48 (runIdBytes ts r) = ts) ∧
    (∀ (ts1 ts2 : Nat) (r1 r2 : Fin 10 → Fin 256), ts1 < ts2 →
      ts2 < 2 ^ 48 → generate_run_id ts1 r1 < generate_run_id ts2 r2) ∧
    (∀ (ts : Nat) (r1 r2 : Fin 10 → Fin 256),
      generate_run_id ts r1 = generate_run_id ts r2 →
      maskedRand r1 = maskedRand r2) := by
  refine ⟨?_, ?_, ?_⟩
  · intro ts r h
    simp only [decode48, runIdBytes, List.take_succ_cons, List.take_zero,
      List.foldl_cons, List.foldl_nil]
    omega
  · intro ts1 ts2 r1 r2 h12 h2
    rw [String.lt_iff_toList_lt]
    show List.Lex (· < ·) (insertDashes (hexOfBytes (runIdBytes ts1 r1)))
      (insertDashes (hexOfBytes (runIdBytes ts2 r2)))
    rw [runIdBytes_eq, runIdBytes_eq, hexOfBytes_append, hexOfBytes_append,
      insertDashes_split_ts, insertDashes_split_ts]
    have hlex : List.Lex (· < ·) (hexOfBytes (tsBytes ts1))
        (hexOfBytes (tsBytes ts2)) :=
      hexOfBytes_lex (tsBytes_bounds ts2) rfl (tsBytes_lex ts1 ts2 h12 h2)
    rw [← List.take_append_drop 8 (hexOfBytes (tsBytes ts1)),
      ← List.take_append_drop 8 (hexOfBytes (tsBytes ts2))] at hlex
    rcases lex_append_split hlex rfl with hl | ⟨heq, hdrop⟩
    · exact lex_append_of_lex hl rfl _ _
    · rw [heq]
      refine lex_append_right _ (List.Lex.cons ?_)
      exact lex_append_of_lex hdrop rfl _ _
  · intro ts r1 r2 h
    have hdata : insertDashes (hexOfBytes (runIdBytes ts r1)) =
        insertDashes (hexOfBytes (runIdBytes ts r2)) :=
      congrArg String.data h
    have hhex : hexOfBytes (runIdBytes ts r1) = hexOfBytes (runIdBytes ts r2) :=
      insertDashes_inj rfl rfl hdata
    have hbounds1 : ∀ b ∈ runIdBytes ts r1, b < 256 := by
      rw [runIdBytes_eq]
      intro b hb
      rcases List.mem_append.mp hb with hb | hb
      · exact tsBytes_bounds ts b hb
      · exact randBytes_bounds r1 b hb
    have hbounds2 : ∀ b ∈ runIdBytes ts r2, b < 256 := by
      rw [runIdBytes_eq]
      intro b hb
      rcases List.mem_append.mp hb with hb | hb
      · exact tsBytes_bounds ts b hb
      · exact randBytes_bounds r2 b hb
    have hbytes : runIdBytes ts r1 = runIdBytes ts r2 :=
      hexOfBytes_inj hbounds1 hbounds2 rfl hhex
    simp only [runIdBytes, List.cons.injEq, and_true] at hbytes
    simp only [maskedRand, List.cons.injEq, and_true]
    omega

/-- Witness for **C7**: the three parts at concrete inputs. -/
theorem c7_run_id_properties_witness :
    decode48 (runIdBytes 123456789 (fun _ => 0)) = 123456789 ∧
    generate_run_id 5 (fun _ => 255) < generate_run_id 6 (fun _ => 0) ∧
    maskedRand (fun _ => 7) = maskedRand (fun _ => 7) := by
  refine ⟨c7_run_id_properties.1 123456789 (fun _ => 0) (by norm_num), ?_, ?_⟩
  · exact c7_run_id_properties.2.1 5 6 (fun _ => 255) (fun _ => 0)
      (by norm_num) (by norm_num)
  · exact c7_run_id_properties.2.2 5 (fun _ => 7) (fun _ => 7) rfl

end Botanu
